import Mathlib

/-!
# T-Rex runner: the game loop of `src/runner.js`

A shallow embedding of `Runner` (`src/runner.js`) with the constants of
`src/config.js` and `src/utils.js`.

* JavaScript numbers are rationals (`ℚ`): exact arithmetic, no rounding.
* The runner object is the record `Runner`; every method is a function from
  runner states to runner states.
* The classes `Trex` and `Horizon` are used by `runner.js` but are not part of
  the sources.  Their methods are parameters (the fields of `Env`), and every
  call of one of them is also recorded, with its arguments, in `Runner.calls`
  (newest call first).
* The browser is part of the state: the clock (`Env.clock`, read through
  `getTimeStamp`), the animation-frame requests that are outstanding
  (`Runner.rafPending`) and the class list of the page body.
* Drawing (`clearCanvas`, arcade-mode scaling, CSS classes of the container,
  event-listener registration) has no effect on the fields below and is left
  out.
* The debug setter `updateConfigSetting` takes any name and any value, so it
  is embedded over a dynamically typed view of the runner (`JSRunner`, with
  tables of `JSVal`); what the language itself contributes (the names an
  object inherits, the operators on mixed values) is the parameter `JS`.
-/

namespace TRexRunner

/-! ## Constants -/

/-- `FPS` of `utils.js`. -/
def FPS : ℚ := 60

/-- `DEFAULT_WIDTH` of `utils.js`. -/
def DEFAULT_WIDTH : ℚ := 600

/-- The entries of `RunnerConfig` (`config.js`). -/
structure Config where
  ACCELERATION : ℚ
  BG_CLOUD_SPEED : ℚ
  BOTTOM_PAD : ℚ
  CLEAR_TIME : ℚ
  CLOUD_FREQUENCY : ℚ
  GAMEOVER_CLEAR_TIME : ℚ
  GAP_COEFFICIENT : ℚ
  GRAVITY : ℚ
  INITIAL_JUMP_VELOCITY : ℚ
  INVERT_FADE_DURATION : ℚ
  INVERT_DISTANCE : ℚ
  MAX_BLINK_COUNT : ℚ
  MAX_CLOUDS : ℚ
  MAX_OBSTACLE_LENGTH : ℚ
  MAX_OBSTACLE_DUPLICATION : ℚ
  MAX_SPEED : ℚ
  MIN_JUMP_HEIGHT : ℚ
  MOBILE_SPEED_COEFFICIENT : ℚ
  RESOURCE_TEMPLATE_ID : String
  SPEED : ℚ
  SPEED_DROP_COEFFICIENT : ℚ
  ARCADE_MODE_INITIAL_TOP_POSITION : ℚ
  ARCADE_MODE_TOP_POSITION_PERCENT : ℚ
  AUTO_JUMP_DISTANCE : ℚ
  deriving DecidableEq

/-- `RunnerConfig` of `config.js`: the default configuration. -/
def RunnerConfig : Config where
  ACCELERATION := 1 / 1000
  BG_CLOUD_SPEED := 2 / 10
  BOTTOM_PAD := 10
  CLEAR_TIME := 3000
  CLOUD_FREQUENCY := 5 / 10
  GAMEOVER_CLEAR_TIME := 750
  GAP_COEFFICIENT := 6 / 10
  GRAVITY := 6 / 10
  INITIAL_JUMP_VELOCITY := 12
  INVERT_FADE_DURATION := 12000
  INVERT_DISTANCE := 700
  MAX_BLINK_COUNT := 3
  MAX_CLOUDS := 6
  MAX_OBSTACLE_LENGTH := 3
  MAX_OBSTACLE_DUPLICATION := 2
  MAX_SPEED := 13
  MIN_JUMP_HEIGHT := 35
  MOBILE_SPEED_COEFFICIENT := 12 / 10
  RESOURCE_TEMPLATE_ID := "audio-resources"
  SPEED := 6
  SPEED_DROP_COEFFICIENT := 3
  ARCADE_MODE_INITIAL_TOP_POSITION := 35
  ARCADE_MODE_TOP_POSITION_PERCENT := 1 / 10
  AUTO_JUMP_DISTANCE := 120

/-- `DefaultDimensions` of `config.js` (a record with `WIDTH` and `HEIGHT`). -/
structure Dimensions where
  WIDTH : ℚ
  HEIGHT : ℚ
  deriving DecidableEq

/-- `DefaultDimensions` of `config.js`. -/
def DefaultDimensions : Dimensions where
  WIDTH := 600
  HEIGHT := 150

/-! ## The collaborators that are not in the sources -/

/-- A primitive JavaScript value: what the tables of the runner (the
configuration, the figure's own configuration) hold and what the debug setter
takes.  The numbers are the rationals, `NaN` and the two infinities. -/
inductive JSVal where
  | undefined
  | null
  | bool (b : Bool)
  | num (q : ℚ)
  | str (s : String)
  | nan
  | infinity (negative : Bool)
  deriving DecidableEq

/-- Modelled from the spec: the discrete status of the figure (class `Trex`,
not in the sources), "a discrete status {WAITING, RUNNING, JUMPING, DUCKING,
CRASHED}". -/
inductive TrexStatus where
  | WAITING
  | RUNNING
  | JUMPING
  | DUCKING
  | CRASHED
  deriving DecidableEq

/-- Modelled from the spec: the figure (class `Trex`, not in the sources).
The fields `xPos`, `jumping`, `ducking`, `jumpCount`, `blinkCount`,
`playingIntro` and `config` are the ones `runner.js` reads or writes; `yPos`,
`jumpVelocity` and `status` are the rest of the spec's data model ("position
(x fixed, y variable), vertical velocity, a discrete status, jump count"). -/
structure Trex where
  xPos : ℚ
  yPos : ℚ
  jumpVelocity : ℚ
  status : TrexStatus
  jumping : Bool
  ducking : Bool
  jumpCount : Nat
  blinkCount : ℚ
  playingIntro : Bool
  config : List (String × JSVal)
  deriving DecidableEq

/-- Modelled from the spec: an obstacle (class `Obstacle`, not in the
sources): "type identifier, horizontal position, width ... and a duplication
count".  `runner.js` reads `xPos` only. -/
structure Obstacle where
  typeId : Nat
  xPos : ℚ
  width : ℚ
  size : Nat
  deriving DecidableEq

/-- Modelled from the spec: the scrolling world (class `Horizon`, not in the
sources); it "owns the obstacle collection queried by collision detection and
auto-jump".  `runner.js` reads `obstacles` only. -/
structure Horizon where
  obstacles : List Obstacle
  clouds : List ℚ
  deriving DecidableEq

/-- The environment of the runner: the clock behind `getTimeStamp` (its
successive readings) and the methods of `Trex` and `Horizon` that `runner.js`
calls.  Those two classes are not in the sources, so their methods are
arbitrary functions here. -/
structure Env where
  /-- The `n`-th reading of the clock. -/
  clock : Nat → ℚ
  /-- The method `tRex.update(deltaTime, opt_status)`. -/
  trexUpdate : ℚ → Option TrexStatus → Trex → Trex
  /-- The method `tRex.updateJump(deltaTime)`. -/
  trexUpdateJump : ℚ → Trex → Trex
  /-- The method `tRex.startJump(speed)`. -/
  trexStartJump : ℚ → Trex → Trex
  /-- The method `tRex.reset()`. -/
  trexReset : Trex → Trex
  /-- The method `horizon.update(deltaTime, currentSpeed, hasObstacles, inverted)`. -/
  horizonUpdate : ℚ → ℚ → Bool → Bool → Horizon → Horizon
  /-- The method `horizon.reset()`. -/
  horizonReset : Horizon → Horizon
  /-- The method `tRex.setJumpVelocity(setting)`. -/
  trexSetJumpVelocity : JSVal → Trex → Trex

/-- A call the runner makes to a collaborator, with its arguments. -/
inductive Call where
  | trexUpdate (deltaTime : ℚ) (status : Option TrexStatus)
  | trexUpdateJump (deltaTime : ℚ)
  | trexStartJump (speed : ℚ)
  | trexReset
  | horizonUpdate (deltaTime : ℚ) (currentSpeed : ℚ) (hasObstacles : Bool) (inverted : Bool)
  | horizonReset
  | requestAnimationFrame (id : Nat)
  | cancelAnimationFrame (id : Nat)
  | trexSetJumpVelocity (setting : JSVal)
  deriving DecidableEq

/-! ## The runner -/

/-- The fields of a `Runner` object (constructor of `runner.js`), followed by
the browser state the runner acts on. -/
structure Runner where
  config : Config
  /-- The static `Runner.config`.  It is the object `RunnerConfig`, and so is
  `this.config` unless a configuration was passed to the constructor: `none`
  when the two are the same object (a write to one is a write to the other),
  the content of `RunnerConfig` when they are different objects. -/
  detachedStatic : Option Config
  dimensions : Dimensions
  tRex : Trex
  horizon : Horizon
  time : ℚ
  runningTime : ℚ
  msPerFrame : ℚ
  currentSpeed : ℚ
  activated : Bool
  playing : Bool
  crashed : Bool
  paused : Bool
  inverted : Bool
  invertTimer : ℚ
  playCount : Nat
  /-- The field `playingIntro`; `undefined` (falsy) until first written. -/
  playingIntro : Bool
  /-- The field `updatePending`; `undefined` (falsy) until first written. -/
  updatePending : Bool
  /-- The field `raqId`; `0` stands for both `undefined` and `0` (falsy). -/
  raqId : Nat
  /-- The field `invertTrigger`; never written in the sources (`none` is
  `undefined`). -/
  invertTrigger : Option Bool
  /-- Browser: how many times the clock has been read. -/
  clockReads : Nat
  /-- Browser: the animation-frame requests that are outstanding. -/
  rafPending : List Nat
  /-- Browser: the last request id handed out (ids are positive and fresh). -/
  rafLast : Nat
  /-- Browser: whether the page body carries the class `inverted`. -/
  bodyInverted : Bool
  /-- The calls made to the collaborators so far, newest first. -/
  calls : List Call

/-- The constructor `Runner(outerContainerId, opt_config)`: the field values
it assigns, with a fresh browser.  The figure and the horizon are created by
`init`; they are parameters here. -/
def Runner.new (opt_config : Option Config) (tRex : Trex) (horizon : Horizon) : Runner where
  config := opt_config.getD RunnerConfig
  detachedStatic := opt_config.map (fun _ => RunnerConfig)
  dimensions := DefaultDimensions
  tRex := tRex
  horizon := horizon
  time := 0
  runningTime := 0
  msPerFrame := 1000 / FPS
  currentSpeed := (opt_config.getD RunnerConfig).SPEED
  activated := false
  playing := false
  crashed := false
  paused := false
  inverted := false
  invertTimer := 0
  playCount := 0
  playingIntro := false
  updatePending := false
  raqId := 0
  invertTrigger := none
  clockReads := 0
  rafPending := []
  rafLast := 0
  bodyInverted := false
  calls := []

/-- The static `Runner.config` as the runner reads it: `this.config` when the
two are the same object. -/
def Runner.staticConfig (s : Runner) : Config :=
  s.detachedStatic.getD s.config

/-- `getTimeStamp()` of `utils.js`: the next reading of the clock. -/
def getTimeStamp (E : Env) (s : Runner) : ℚ × Runner :=
  (E.clock s.clockReads, { s with clockReads := s.clockReads + 1 })

/-- `requestAnimationFrame(cb)`: registers a request and returns its id, a
fresh positive number. -/
def requestAnimationFrame (s : Runner) : Nat × Runner :=
  (s.rafLast + 1,
    { s with
      rafLast := s.rafLast + 1
      rafPending := (s.rafLast + 1) :: s.rafPending
      calls := Call.requestAnimationFrame (s.rafLast + 1) :: s.calls })

/-- `cancelAnimationFrame(id)`: drops the request `id` if it is outstanding. -/
def cancelAnimationFrame (id : Nat) (s : Runner) : Runner :=
  { s with
    rafPending := s.rafPending.filter (fun r => r != id)
    calls := Call.cancelAnimationFrame id :: s.calls }

/-- `tRex.update(deltaTime, opt_status)`, recorded. -/
def callTrexUpdate (E : Env) (deltaTime : ℚ) (status : Option TrexStatus) (s : Runner) : Runner :=
  { s with
    tRex := E.trexUpdate deltaTime status s.tRex
    calls := Call.trexUpdate deltaTime status :: s.calls }

/-- `tRex.updateJump(deltaTime)`, recorded. -/
def callTrexUpdateJump (E : Env) (deltaTime : ℚ) (s : Runner) : Runner :=
  { s with
    tRex := E.trexUpdateJump deltaTime s.tRex
    calls := Call.trexUpdateJump deltaTime :: s.calls }

/-- `tRex.startJump(speed)`, recorded. -/
def callTrexStartJump (E : Env) (speed : ℚ) (s : Runner) : Runner :=
  { s with
    tRex := E.trexStartJump speed s.tRex
    calls := Call.trexStartJump speed :: s.calls }

/-- `tRex.reset()`, recorded. -/
def callTrexReset (E : Env) (s : Runner) : Runner :=
  { s with
    tRex := E.trexReset s.tRex
    calls := Call.trexReset :: s.calls }

/-- `horizon.update(deltaTime, currentSpeed, hasObstacles, inverted)`, recorded. -/
def callHorizonUpdate (E : Env) (deltaTime currentSpeed : ℚ) (hasObstacles inverted : Bool)
    (s : Runner) : Runner :=
  { s with
    horizon := E.horizonUpdate deltaTime currentSpeed hasObstacles inverted s.horizon
    calls := Call.horizonUpdate deltaTime currentSpeed hasObstacles inverted :: s.calls }

/-- `horizon.reset()`, recorded. -/
def callHorizonReset (E : Env) (s : Runner) : Runner :=
  { s with
    horizon := E.horizonReset s.horizon
    calls := Call.horizonReset :: s.calls }

/-- `Runner.prototype.setSpeed(opt_speed)`; `none` is a call without
argument.  `opt_speed || this.currentSpeed` takes `currentSpeed` when
`opt_speed` is `undefined` or `0`. -/
def setSpeed (opt_speed : Option ℚ) (s : Runner) : Runner :=
  let truthy : Bool := match opt_speed with
    | some v => v != 0
    | none => false
  let speed : ℚ := if truthy then opt_speed.getD 0 else s.currentSpeed
  if s.dimensions.WIDTH < DEFAULT_WIDTH then
    let mobileSpeed : ℚ :=
      speed * s.dimensions.WIDTH / DEFAULT_WIDTH * s.config.MOBILE_SPEED_COEFFICIENT
    { s with currentSpeed := if mobileSpeed > speed then speed else mobileSpeed }
  else if truthy then
    { s with currentSpeed := opt_speed.getD 0 }
  else s

/-- `Runner.prototype.startGame()`. -/
def startGame (s : Runner) : Runner :=
  { s with
    runningTime := 0
    playingIntro := false
    tRex := { s.tRex with playingIntro := false }
    playCount := s.playCount + 1
    playing := true }

/-- `Runner.prototype.invert(reset)`.  `classList.toggle(name, force)` sets
the class when `force` is given and flips it when `force` is `undefined`; it
returns whether the class is present afterwards. -/
def invert (reset : Bool) (s : Runner) : Runner :=
  if reset then
    { s with bodyInverted := false, invertTimer := 0, inverted := false }
  else
    let present : Bool := match s.invertTrigger with
      | some force => force
      | none => !s.bodyInverted
    { s with bodyInverted := present, inverted := present }

/-- `Runner.prototype.checkAutoJump()`. -/
def checkAutoJump (E : Env) (s : Runner) : Runner :=
  match s.horizon.obstacles with
  | [] => s
  | obstacle :: _ =>
    let obstacleDistance : ℚ := obstacle.xPos - s.tRex.xPos
    if obstacleDistance > 0 ∧ obstacleDistance < s.config.AUTO_JUMP_DISTANCE ∧
        s.tRex.jumping = false ∧ s.tRex.ducking = false then
      callTrexStartJump E s.currentSpeed s
    else s

/-- `Runner.prototype.scheduleNextUpdate()`. -/
def scheduleNextUpdate (s : Runner) : Runner :=
  if s.updatePending = false then
    let r := requestAnimationFrame { s with updatePending := true }
    { r.2 with raqId := r.1 }
  else s

/-- `Runner.prototype.stop()`. -/
def stop (s : Runner) : Runner :=
  let s1 := cancelAnimationFrame s.raqId { s with playing := false, paused := true }
  { s1 with raqId := 0 }

/-- `Runner.prototype.restart()`, with the `update` it ends with as the
parameter `self`. -/
def restartWith (E : Env) (self : Runner → Runner) (s : Runner) : Runner :=
  if s.raqId = 0 then
    let s1 := { s with
      playCount := s.playCount + 1
      runningTime := 0
      playing := true
      crashed := false }
    let s2 := setSpeed (some s1.config.SPEED) s1
    let t := getTimeStamp E s2
    let s3 := { t.2 with time := t.1 }
    let s4 := callHorizonReset E s3
    let s5 := callTrexReset E s4
    let s6 := invert true s5
    self s6
  else s

/-- `Runner.prototype.playIntro()`, with the `update` that `restart` ends
with as the parameter `self`. -/
def playIntroWith (E : Env) (self : Runner → Runner) (s : Runner) : Runner :=
  if s.activated = false ∧ s.crashed = false then
    let s1 := { s with playingIntro := true, tRex := { s.tRex with playingIntro := true } }
    let s2 := startGame s1
    { s2 with playing := true, activated := true }
  else if s.crashed = true then
    restartWith E self s
  else s

/-- The elapsed time `now - (this.time || now)` that `update` computes:
a stored time of `0` is falsy, so the elapsed time is then `now - now`. -/
def elapsed (now time : ℚ) : ℚ :=
  now - (if time = 0 then now else time)

/-- The block `if (this.playing) { ... }` of `update`; it returns the local
`deltaTime` (which the block reassigns) with the state. -/
def playingBlock (E : Env) (self : Runner → Runner) (deltaTime : ℚ) (s : Runner) :
    ℚ × Runner :=
  let s1 := if s.tRex.jumping = true then callTrexUpdateJump E deltaTime s else s
  let s2 := { s1 with runningTime := s1.runningTime + deltaTime }
  let hasObstacles : Bool := decide (s2.runningTime > s2.config.CLEAR_TIME)
  let s3 :=
    if s2.tRex.jumpCount = 1 ∧ s2.playingIntro = false then playIntroWith E self s2 else s2
  let deltaTime1 : ℚ := if s3.activated = false then 0 else deltaTime
  let s4 := callHorizonUpdate E deltaTime1 s3.currentSpeed hasObstacles s3.inverted s3
  let s5 := if hasObstacles = true then checkAutoJump E s4 else s4
  let s6 := if s5.currentSpeed < s5.config.MAX_SPEED then
      { s5 with currentSpeed := s5.currentSpeed + s5.config.ACCELERATION }
    else s5
  (deltaTime1, s6)

/-- `Runner.prototype.update()`, with the `update` that a nested `restart`
ends with as the parameter `self`.  `Runner.config.MAX_BLINK_COUNT` is read
from the static configuration (`Runner.staticConfig`). -/
def updateWith (E : Env) (self : Runner → Runner) (s : Runner) : Runner :=
  let s1 := { s with updatePending := false }
  let t := getTimeStamp E s1
  let now := t.1
  let deltaTime := elapsed now t.2.time
  let s2 := { t.2 with time := now }
  let r := if s2.playing = true then playingBlock E self deltaTime s2 else (deltaTime, s2)
  let s3 := r.2
  if s3.playing = true ∨
      (s3.activated = false ∧ s3.tRex.blinkCount < s3.staticConfig.MAX_BLINK_COUNT) then
    scheduleNextUpdate (callTrexUpdate E r.1 none s3)
  else s3

/-- `Runner.prototype.update()`.  The source is recursive: `update` calls
`playIntro`, which calls `restart` when `crashed`, which ends with `update`.
`restart` clears `crashed` first, so that inner `update` calls no `restart`
again, and two levels of `updateWith` are the whole recursion: `update_eq`
proves the source's equation `update = updateWith update`, and
`update_unique` that `update` is its only solution. -/
def update (E : Env) (s : Runner) : Runner :=
  updateWith E (updateWith E id) s

/-- `Runner.prototype.restart()`. -/
def restart (E : Env) (s : Runner) : Runner :=
  restartWith E (update E) s

/-- `Runner.prototype.playIntro()`. -/
def playIntro (E : Env) (s : Runner) : Runner :=
  playIntroWith E (update E) s

/-- `Runner.prototype.play()`. -/
def play (E : Env) (s : Runner) : Runner :=
  if s.crashed = false then
    let s1 := { s with playing := true, paused := false }
    let s2 := callTrexUpdate E 0 (some TrexStatus.RUNNING) s1
    let t := getTimeStamp E s2
    update E { t.2 with time := t.1 }
  else s

/-- `Runner.prototype.onVisibilityChange(e)`; `hidden` is the value of
`document.hidden || document.webkitHidden || e.type == 'blur' ||
document.visibilityState != 'visible'`. -/
def onVisibilityChange (E : Env) (hidden : Bool) (s : Runner) : Runner :=
  if hidden = true then stop s
  else if s.crashed = false then play E (callTrexReset E s)
  else s

/-- The browser runs the animation-frame callback of request `id`: the
request is no longer outstanding and `update` runs.  A request that is not
outstanding (cancelled, or already run) runs nothing. -/
def animationFrame (E : Env) (id : Nat) (s : Runner) : Runner :=
  if id ∈ s.rafPending then
    update E { s with rafPending := s.rafPending.filter (fun r => r != id) }
  else s

/-- The timer that `init` sets (`setTimeout(..., 500)`), when it fires: the
automatic first jump. -/
def autoStart (E : Env) (s : Runner) : Runner :=
  if s.tRex.jumping = false then callTrexStartJump E s.currentSpeed s else s

/-! ## The collision detector of the spec -/

/-- Modelled from the spec: an axis-aligned bounding box (class `CollisionBox`,
not in the sources), "axis-aligned rectangle used for collision
approximation". -/
structure CollisionBox where
  x : ℚ
  y : ℚ
  width : ℚ
  height : ℚ
  deriving DecidableEq

/-- Modelled from the spec: the rectangle test of the collision detector (not
in the sources), "axis-aligned rectangle intersection": two boxes collide when
they overlap "by any positive amount" on both axes. -/
def boxCompare (a b : CollisionBox) : Bool :=
  decide (a.x < b.x + b.width ∧ b.x < a.x + a.width ∧
    a.y < b.y + b.height ∧ b.y < a.y + a.height)

/-- Modelled from the spec: the bounding boxes of the figure ("one or more
axis-aligned bounding boxes whose dimensions depend on status") and of an
obstacle ("one bounding box per unit in the cluster"), as the detector tests
them, shrunk by the tolerance.  The classes that define them are not in the
sources, so the boxes are parameters. -/
structure Geometry where
  trexBoxes : Trex → List CollisionBox
  obstacleBoxes : Obstacle → List CollisionBox

/-- Modelled from the spec: the collision detector (not in the sources),
`check(figureBoxes, obstacles)`: some box of the figure collides with some box
of an active obstacle. -/
def collides (G : Geometry) (s : Runner) : Bool :=
  s.horizon.obstacles.any fun o =>
    (G.trexBoxes s.tRex).any fun a => (G.obstacleBoxes o).any fun b => boxCompare a b

/-! ## The debug setter -/

/-- The entries of a configuration by name, as JavaScript values, in the order
of `config.js`. -/
def Config.entries (c : Config) : List (String × JSVal) :=
  [("ACCELERATION", JSVal.num c.ACCELERATION),
   ("BG_CLOUD_SPEED", JSVal.num c.BG_CLOUD_SPEED),
   ("BOTTOM_PAD", JSVal.num c.BOTTOM_PAD),
   ("CLEAR_TIME", JSVal.num c.CLEAR_TIME),
   ("CLOUD_FREQUENCY", JSVal.num c.CLOUD_FREQUENCY),
   ("GAMEOVER_CLEAR_TIME", JSVal.num c.GAMEOVER_CLEAR_TIME),
   ("GAP_COEFFICIENT", JSVal.num c.GAP_COEFFICIENT),
   ("GRAVITY", JSVal.num c.GRAVITY),
   ("INITIAL_JUMP_VELOCITY", JSVal.num c.INITIAL_JUMP_VELOCITY),
   ("INVERT_FADE_DURATION", JSVal.num c.INVERT_FADE_DURATION),
   ("INVERT_DISTANCE", JSVal.num c.INVERT_DISTANCE),
   ("MAX_BLINK_COUNT", JSVal.num c.MAX_BLINK_COUNT),
   ("MAX_CLOUDS", JSVal.num c.MAX_CLOUDS),
   ("MAX_OBSTACLE_LENGTH", JSVal.num c.MAX_OBSTACLE_LENGTH),
   ("MAX_OBSTACLE_DUPLICATION", JSVal.num c.MAX_OBSTACLE_DUPLICATION),
   ("MAX_SPEED", JSVal.num c.MAX_SPEED),
   ("MIN_JUMP_HEIGHT", JSVal.num c.MIN_JUMP_HEIGHT),
   ("MOBILE_SPEED_COEFFICIENT", JSVal.num c.MOBILE_SPEED_COEFFICIENT),
   ("RESOURCE_TEMPLATE_ID", JSVal.str c.RESOURCE_TEMPLATE_ID),
   ("SPEED", JSVal.num c.SPEED),
   ("SPEED_DROP_COEFFICIENT", JSVal.num c.SPEED_DROP_COEFFICIENT),
   ("ARCADE_MODE_INITIAL_TOP_POSITION", JSVal.num c.ARCADE_MODE_INITIAL_TOP_POSITION),
   ("ARCADE_MODE_TOP_POSITION_PERCENT", JSVal.num c.ARCADE_MODE_TOP_POSITION_PERCENT),
   ("AUTO_JUMP_DISTANCE", JSVal.num c.AUTO_JUMP_DISTANCE)]

/-- `table[name] = value` on a table of named values: the entry is replaced,
or added when the table has none of that name. -/
def assocSet (name : String) (value : JSVal) : List (String × JSVal) → List (String × JSVal)
  | [] => [(name, value)]
  | (n, v) :: rest =>
    if n = name then (name, value) :: rest else (n, v) :: assocSet name value rest

/-- Truthiness of a value (`if (v)`, `v || w`): `undefined`, `null`, `false`,
`0`, `NaN` and the empty string are falsy. -/
def JSVal.truthy : JSVal → Bool
  | JSVal.undefined => false
  | JSVal.null => false
  | JSVal.bool b => b
  | JSVal.num q => decide (q ≠ 0)
  | JSVal.str t => decide (t ≠ "")
  | JSVal.nan => false
  | JSVal.infinity _ => true

/-- The part of the JavaScript language that the debug setter relies on and
that is no code of the runner: the names an object literal inherits from its
prototype chain (as writable data properties, such as `toString`), and the
operators `*`, `/` and `>` on arbitrary values, with their coercions.  On
numbers the three operators are those of the rationals. -/
structure JS where
  inherited : List String
  mul : JSVal → JSVal → JSVal
  div : JSVal → JSVal → JSVal
  gt : JSVal → JSVal → Bool
  mul_num : ∀ a b : ℚ, mul (JSVal.num a) (JSVal.num b) = JSVal.num (a * b)
  div_num : ∀ a b : ℚ, b ≠ 0 → div (JSVal.num a) (JSVal.num b) = JSVal.num (a / b)
  gt_num : ∀ a b : ℚ, gt (JSVal.num a) (JSVal.num b) = decide (a > b)

/-- `name in table`, for a table that is an object literal: true for its own
entries, for the names it inherits, and for `__proto__`. -/
def JS.has (J : JS) (table : List (String × JSVal)) (name : String) : Bool :=
  (table.lookup name).isSome || J.inherited.contains name || name == "__proto__"

/-- `table[name] = value`, for a primitive value: the entry is replaced, or
added when the table has none of that name (also under an inherited name).
Under the name `__proto__` nothing is stored: that name is the accessor of the
prototype, and its setter ignores a value that is neither an object nor
`null`. -/
def JS.store (name : String) (value : JSVal) (table : List (String × JSVal)) :
    List (String × JSVal) :=
  if name = "__proto__" then table else assocSet name value table

/-- `table[name]`, read from the own entries; `undefined` when there is none. -/
def JS.read (table : List (String × JSVal)) (name : String) : JSVal :=
  (table.lookup name).getD JSVal.undefined

/-- The runner as the debug setter sees it, dynamically typed: the
configuration is a table that holds any value under any name, and so does the
speed.  These are the fields `updateConfigSetting` and the `setSpeed` it calls
read or write. -/
structure JSRunner where
  /-- The own entries of `this.config`. -/
  config : List (String × JSVal)
  currentSpeed : JSVal
  dimensions : Dimensions
  tRex : Trex
  calls : List Call

/-- A runner, seen dynamically typed. -/
def Runner.js (s : Runner) : JSRunner where
  config := s.config.entries
  currentSpeed := JSVal.num s.currentSpeed
  dimensions := s.dimensions
  tRex := s.tRex
  calls := s.calls

/-- `Runner.prototype.setSpeed(opt_speed)` on dynamically typed values; on
numbers it is `setSpeed` (`setSpeed_js_num`). -/
def JSRunner.setSpeed (J : JS) (opt_speed : JSVal) (d : JSRunner) : JSRunner :=
  let speed : JSVal := if opt_speed.truthy = true then opt_speed else d.currentSpeed
  if d.dimensions.WIDTH < DEFAULT_WIDTH then
    let mobileSpeed : JSVal :=
      J.mul (J.div (J.mul speed (JSVal.num d.dimensions.WIDTH)) (JSVal.num DEFAULT_WIDTH))
        (JS.read d.config "MOBILE_SPEED_COEFFICIENT")
    { d with currentSpeed := if J.gt mobileSpeed speed = true then speed else mobileSpeed }
  else if opt_speed.truthy = true then
    { d with currentSpeed := opt_speed }
  else d

/-- `Runner.prototype.updateConfigSetting(setting, value)`, for every name and
every primitive value.  `value != undefined` is false for `undefined` and for
`null` only. -/
def updateConfigSetting (J : JS) (E : Env) (setting : String) (value : JSVal) (d : JSRunner) :
    JSRunner :=
  if J.has d.config setting = true ∧ value ≠ JSVal.undefined ∧ value ≠ JSVal.null then
    let d1 := { d with config := JS.store setting value d.config }
    if setting = "GRAVITY" ∨ setting = "MIN_JUMP_HEIGHT" ∨
        setting = "SPEED_DROP_COEFFICIENT" then
      { d1 with tRex := { d1.tRex with config := JS.store setting value d1.tRex.config } }
    else if setting = "INITIAL_JUMP_VELOCITY" then
      { d1 with
        tRex := E.trexSetJumpVelocity value d1.tRex
        calls := Call.trexSetJumpVelocity value :: d1.calls }
    else if setting = "SPEED" then
      d1.setSpeed J value
    else d1
  else d

/-! ## Sessions and the call record -/

/-- A continuous session of `n` update ticks: `update` run `n` times in a row,
with nothing else in between. -/
def ticks (E : Env) : Nat → Runner → Runner
  | 0, s => s
  | n + 1, s => update E (ticks E n s)

/-- The arguments `(deltaTime, currentSpeed, hasObstacles, inverted)` of the
`horizon.update` calls in a call record, newest first. -/
def horizonUpdates : List Call → List (ℚ × ℚ × Bool × Bool)
  | [] => []
  | Call.horizonUpdate d v h i :: cs => (d, v, h, i) :: horizonUpdates cs
  | _ :: cs => horizonUpdates cs

/-- The elapsed time a call advances its collaborator by, for the calls that
take one (`tRex.update`, `tRex.updateJump`, `horizon.update`). -/
def Call.elapsedArg : Call → Option ℚ
  | Call.trexUpdate d _ => some d
  | Call.trexUpdateJump d => some d
  | Call.horizonUpdate d _ _ _ => some d
  | _ => none

/-- The calls in a call record that advance a collaborator by an elapsed time
(`tRex.update`, `tRex.updateJump`, `horizon.update`), newest first. -/
def timedCalls (cs : List Call) : List Call :=
  cs.filter (fun c => c.elapsedArg.isSome)

/-! ## Concrete inputs -/

/-- A figure standing on the ground at `x = 50`, not jumping and not ducking. -/
def trex0 : Trex where
  xPos := 50
  yPos := 93
  jumpVelocity := 0
  status := TrexStatus.RUNNING
  jumping := false
  ducking := false
  jumpCount := 0
  blinkCount := 0
  playingIntro := false
  config := []

/-- An environment for the concrete inputs: the clock reads 1000, 1016,
1032, ... ; `startJump` makes the figure jump unless it jumps already;
`horizon.reset` empties the obstacle list; `setJumpVelocity` stores a
velocity that is a number, upwards; the other methods leave the figure and the
horizon as they are. -/
def env0 : Env where
  clock := fun n => 1000 + 16 * n
  trexUpdate := fun _ _ t => t
  trexUpdateJump := fun _ t => t
  trexStartJump := fun _ t =>
    if t.jumping = true then t else { t with jumping := true, status := TrexStatus.JUMPING }
  trexReset := fun t => t
  horizonUpdate := fun _ _ _ _ h => h
  horizonReset := fun h => { h with obstacles := [] }
  trexSetJumpVelocity := fun v t =>
    match v with
    | JSVal.num q => { t with jumpVelocity := -q }
    | _ => t

/-- The runner as `init` leaves it before its first `update`: the constructor's
values, the default configuration and width, and `startGame` done. -/
def runner0 : Runner :=
  startGame (Runner.new none trex0 { obstacles := [], clouds := [] })

/-- A running game with a single obstacle whose leading edge is `distance`
ahead of the figure. -/
def runnerAt (distance : ℚ) (jumping : Bool) : Runner :=
  { runner0 with
    activated := true
    time := 900
    horizon := { obstacles := [{ typeId := 0, xPos := 50 + distance, width := 17, size := 1 }],
                 clouds := [] }
    tRex := { trex0 with jumping := jumping } }

/-- A running game whose speed is half an acceleration step below the
maximum: 12.9995 with `MAX_SPEED = 13` and `ACCELERATION = 0.001`. -/
def runnerNearMax : Runner :=
  { runner0 with activated := true, time := 900, currentSpeed := 129995 / 10000 }

/-- A running game configured with a negative acceleration. -/
def runnerSlowing : Runner :=
  { runner0 with
    activated := true
    time := 900
    config := { RunnerConfig with ACCELERATION := -1 } }

/-- A crashed game on a display 400 wide, narrower than `DEFAULT_WIDTH = 600`,
that ran at speed 9 and holds no frame request. -/
def runnerCrashedNarrow : Runner :=
  { runner0 with
    activated := true
    playing := false
    crashed := true
    time := 900
    runningTime := 5000
    currentSpeed := 9
    dimensions := { WIDTH := 400, HEIGHT := 150 } }

/-- A running game whose running time reaches `CLEAR_TIME = 3000` exactly in
the next tick: 2984 so far, last tick at 984, next clock reading 1000. -/
def runnerAtClearTime : Runner :=
  { runner0 with activated := true, time := 984, runningTime := 2984 }

/-- A game that has been playing for 300 ms and is not yet activated; its
figure stands and has not jumped yet. -/
def runnerWarmingUp : Runner :=
  { runner0 with time := 900, runningTime := 300 }

/-- The environment `env0` with a coarse clock that still reads zero at its
second reading: it reads 0, 0, 16, 32, ... -/
def envCoarse : Env :=
  { env0 with clock := fun n => 16 * ((n - 1 : Nat) : ℚ) }

/-- The runner after `init` under the coarse clock: `runner0` after its first
`update`, which read the clock at `0`. -/
def runnerAfterFirstTick : Runner :=
  update envCoarse runner0

/-- A crashed game that still holds the id of its last frame request
(`raqId = 1`): that request has run and nothing has cleared the field. -/
def runnerCrashedHolding : Runner :=
  { runner0 with
    activated := true
    playing := false
    crashed := true
    time := 900
    runningTime := 5000
    raqId := 1
    rafLast := 1 }

/-- The runner after `init`: `runner0` after its first `update`. -/
def runner1 : Runner :=
  update env0 runner0

/-- A geometry for the concrete inputs: the figure is one box 44 wide and 47
high at its position; an obstacle is one box of its width, 35 high, standing
on the ground line (top at `y = 105`). -/
def geometry0 : Geometry where
  trexBoxes := fun t => [{ x := t.xPos, y := t.yPos, width := 44, height := 47 }]
  obstacleBoxes := fun o => [{ x := o.xPos, y := 105, width := o.width, height := 35 }]

/-- A running game, past the clear time, in which an obstacle stands inside
the figure: the obstacle covers `x` from 60 to 77 and `y` from 105 to 140, the
figure `x` from 50 to 94 and `y` from 93 to 140. -/
def runnerColliding : Runner :=
  { runner0 with
    activated := true
    time := 900
    runningTime := 5000
    horizon := { obstacles := [{ typeId := 0, xPos := 60, width := 17, size := 1 }],
                 clouds := [] } }

/-- The environment `env0` with a figure whose jump is over at its next
`updateJump`: the figure lands, and its jump count goes up by one. -/
def envLanding : Env :=
  { env0 with
    trexUpdateJump := fun _ t =>
      { t with jumping := false, status := TrexStatus.RUNNING, jumpCount := t.jumpCount + 1 } }

/-- A game paused in its first jump: `init`, two ticks (at clock readings 1000
and 1016), the automatic first jump of `init`, then `stop`. -/
def runnerPausedInFirstJump : Runner :=
  stop (autoStart envLanding (update envLanding (update envLanding runner0)))

/-- The names every object inherits from `Object.prototype` as writable data
properties. -/
def objectPrototypeNames : List String :=
  ["constructor", "hasOwnProperty", "isPrototypeOf", "propertyIsEnumerable",
   "toLocaleString", "toString", "valueOf", "__defineGetter__", "__defineSetter__",
   "__lookupGetter__", "__lookupSetter__"]

/-- The number a value stands for in arithmetic, for the values of the concrete
inputs: numbers, booleans (`1` and `0`), `null` and the empty string (`0`). -/
def toNumber0 : JSVal → Option ℚ
  | JSVal.num q => some q
  | JSVal.bool b => some (if b = true then 1 else 0)
  | JSVal.null => some 0
  | JSVal.str t => if t = "" then some 0 else none
  | _ => none

/-- A JavaScript for the concrete inputs: the names of `Object.prototype`, and
operators that work on the values `toNumber0` knows and give `NaN` (or
`false`) on every other value. -/
def js0 : JS where
  inherited := objectPrototypeNames
  mul := fun a b =>
    match toNumber0 a, toNumber0 b with
    | some x, some y => JSVal.num (x * y)
    | _, _ => JSVal.nan
  div := fun a b =>
    match toNumber0 a, toNumber0 b with
    | some x, some y => if y = 0 then JSVal.nan else JSVal.num (x / y)
    | _, _ => JSVal.nan
  gt := fun a b =>
    match toNumber0 a, toNumber0 b with
    | some x, some y => decide (x > y)
    | _, _ => false
  mul_num := fun _ _ => rfl
  div_num := fun a b h => by simp [toNumber0, h]
  gt_num := fun _ _ => rfl

/-! ## The recursion of `update` -/

theorem setSpeed_crashed (o : Option ℚ) (s : Runner) : (setSpeed o s).crashed = s.crashed := by
  unfold setSpeed
  dsimp only
  split
  · rfl
  · split <;> rfl

theorem restartWith_congr (E : Env) (f g : Runner → Runner)
    (h : ∀ s : Runner, s.crashed = false → f s = g s) (s : Runner) :
    restartWith E f s = restartWith E g s := by
  unfold restartWith
  split
  · apply h
    simp [invert, callTrexReset, callHorizonReset, getTimeStamp, setSpeed_crashed]
  · rfl

theorem playIntroWith_congr (E : Env) (f g : Runner → Runner)
    (h : ∀ s : Runner, s.crashed = false → f s = g s) (s : Runner) :
    playIntroWith E f s = playIntroWith E g s := by
  unfold playIntroWith
  rw [restartWith_congr E f g h]

theorem playIntroWith_of_not_crashed (E : Env) (f g : Runner → Runner) (s : Runner)
    (hs : s.crashed = false) : playIntroWith E f s = playIntroWith E g s := by
  unfold playIntroWith
  simp [hs]

theorem playingBlock_congr (E : Env) (f g : Runner → Runner)
    (h : ∀ s : Runner, s.crashed = false → f s = g s) (d : ℚ) (s : Runner) :
    playingBlock E f d s = playingBlock E g d s := by
  unfold playingBlock
  simp only [playIntroWith_congr E f g h]

theorem updateWith_congr (E : Env) (f g : Runner → Runner)
    (h : ∀ s : Runner, s.crashed = false → f s = g s) (s : Runner) :
    updateWith E f s = updateWith E g s := by
  unfold updateWith
  simp only [playingBlock_congr E f g h]

theorem playingBlock_of_not_crashed (E : Env) (f g : Runner → Runner) (d : ℚ) (s : Runner)
    (hs : s.crashed = false) : playingBlock E f d s = playingBlock E g d s := by
  have h1 : ∀ s1 : Runner, s1.crashed = false → playIntroWith E f s1 = playIntroWith E g s1 :=
    fun s1 h => playIntroWith_of_not_crashed E f g s1 h
  unfold playingBlock
  dsimp only
  rw [h1]
  split <;> simp [callTrexUpdateJump, hs]

theorem updateWith_of_not_crashed (E : Env) (f g : Runner → Runner) (s : Runner)
    (hs : s.crashed = false) : updateWith E f s = updateWith E g s := by
  have h1 : ∀ (d : ℚ) (s1 : Runner), s1.crashed = false →
      playingBlock E f d s1 = playingBlock E g d s1 :=
    fun d s1 h => playingBlock_of_not_crashed E f g d s1 h
  unfold updateWith
  dsimp only
  rw [h1]
  simpa [getTimeStamp] using hs

/-- The source's recursive equation: `update` is `updateWith` applied to itself. -/
theorem update_eq (E : Env) (s : Runner) : update E s = updateWith E (update E) s := by
  unfold update
  exact updateWith_congr E _ _ (fun s' hs => updateWith_of_not_crashed E _ _ s' hs) s

/-- Every function that satisfies the source's recursive equation is `update`. -/
theorem update_unique (E : Env) (u : Runner → Runner)
    (hu : ∀ s : Runner, u s = updateWith E u s) (s : Runner) : u s = update E s := by
  rw [hu s]
  unfold update
  refine updateWith_congr E _ _ (fun s' hs => ?_) s
  rw [hu s']
  exact updateWith_of_not_crashed E _ _ s' hs

/-- When not crashed, `update` never reaches `restart`. -/
theorem update_of_not_crashed (E : Env) (s : Runner) (hs : s.crashed = false) :
    update E s = updateWith E id s := by
  unfold update
  exact updateWith_of_not_crashed E _ _ s hs

/-! ## What each method leaves unchanged -/

@[simp]
theorem Runner.ite_fields (c : Prop) [Decidable c] (a b : Runner) :
    (if c then a else b).config = (if c then a.config else b.config) ∧
    (if c then a else b).dimensions = (if c then a.dimensions else b.dimensions) ∧
    (if c then a else b).tRex = (if c then a.tRex else b.tRex) ∧
    (if c then a else b).horizon = (if c then a.horizon else b.horizon) ∧
    (if c then a else b).time = (if c then a.time else b.time) ∧
    (if c then a else b).runningTime = (if c then a.runningTime else b.runningTime) ∧
    (if c then a else b).msPerFrame = (if c then a.msPerFrame else b.msPerFrame) ∧
    (if c then a else b).currentSpeed = (if c then a.currentSpeed else b.currentSpeed) ∧
    (if c then a else b).activated = (if c then a.activated else b.activated) ∧
    (if c then a else b).playing = (if c then a.playing else b.playing) ∧
    (if c then a else b).crashed = (if c then a.crashed else b.crashed) ∧
    (if c then a else b).paused = (if c then a.paused else b.paused) ∧
    (if c then a else b).inverted = (if c then a.inverted else b.inverted) ∧
    (if c then a else b).invertTimer = (if c then a.invertTimer else b.invertTimer) ∧
    (if c then a else b).playCount = (if c then a.playCount else b.playCount) ∧
    (if c then a else b).playingIntro = (if c then a.playingIntro else b.playingIntro) ∧
    (if c then a else b).updatePending = (if c then a.updatePending else b.updatePending) ∧
    (if c then a else b).raqId = (if c then a.raqId else b.raqId) ∧
    (if c then a else b).invertTrigger = (if c then a.invertTrigger else b.invertTrigger) ∧
    (if c then a else b).clockReads = (if c then a.clockReads else b.clockReads) ∧
    (if c then a else b).rafPending = (if c then a.rafPending else b.rafPending) ∧
    (if c then a else b).rafLast = (if c then a.rafLast else b.rafLast) ∧
    (if c then a else b).bodyInverted = (if c then a.bodyInverted else b.bodyInverted) ∧
    (if c then a else b).calls = (if c then a.calls else b.calls) := by
  split <;> simp

@[simp]
theorem getTimeStamp_fields (E : Env) (s : Runner) :
    (getTimeStamp E s).2.config = s.config ∧
    (getTimeStamp E s).2.dimensions = s.dimensions ∧
    (getTimeStamp E s).2.tRex = s.tRex ∧
    (getTimeStamp E s).2.horizon = s.horizon ∧
    (getTimeStamp E s).2.time = s.time ∧
    (getTimeStamp E s).2.runningTime = s.runningTime ∧
    (getTimeStamp E s).2.msPerFrame = s.msPerFrame ∧
    (getTimeStamp E s).2.currentSpeed = s.currentSpeed ∧
    (getTimeStamp E s).2.activated = s.activated ∧
    (getTimeStamp E s).2.playing = s.playing ∧
    (getTimeStamp E s).2.crashed = s.crashed ∧
    (getTimeStamp E s).2.paused = s.paused ∧
    (getTimeStamp E s).2.inverted = s.inverted ∧
    (getTimeStamp E s).2.invertTimer = s.invertTimer ∧
    (getTimeStamp E s).2.playCount = s.playCount ∧
    (getTimeStamp E s).2.playingIntro = s.playingIntro ∧
    (getTimeStamp E s).2.updatePending = s.updatePending ∧
    (getTimeStamp E s).2.raqId = s.raqId ∧
    (getTimeStamp E s).2.invertTrigger = s.invertTrigger ∧
    (getTimeStamp E s).2.clockReads = s.clockReads + 1 ∧
    (getTimeStamp E s).2.rafPending = s.rafPending ∧
    (getTimeStamp E s).2.rafLast = s.rafLast ∧
    (getTimeStamp E s).2.bodyInverted = s.bodyInverted ∧
    (getTimeStamp E s).2.calls = s.calls := by
  simp [getTimeStamp]

@[simp]
theorem requestAnimationFrame_fields (s : Runner) :
    (requestAnimationFrame s).2.config = s.config ∧
    (requestAnimationFrame s).2.dimensions = s.dimensions ∧
    (requestAnimationFrame s).2.tRex = s.tRex ∧
    (requestAnimationFrame s).2.horizon = s.horizon ∧
    (requestAnimationFrame s).2.time = s.time ∧
    (requestAnimationFrame s).2.runningTime = s.runningTime ∧
    (requestAnimationFrame s).2.msPerFrame = s.msPerFrame ∧
    (requestAnimationFrame s).2.currentSpeed = s.currentSpeed ∧
    (requestAnimationFrame s).2.activated = s.activated ∧
    (requestAnimationFrame s).2.playing = s.playing ∧
    (requestAnimationFrame s).2.crashed = s.crashed ∧
    (requestAnimationFrame s).2.paused = s.paused ∧
    (requestAnimationFrame s).2.inverted = s.inverted ∧
    (requestAnimationFrame s).2.invertTimer = s.invertTimer ∧
    (requestAnimationFrame s).2.playCount = s.playCount ∧
    (requestAnimationFrame s).2.playingIntro = s.playingIntro ∧
    (requestAnimationFrame s).2.updatePending = s.updatePending ∧
    (requestAnimationFrame s).2.raqId = s.raqId ∧
    (requestAnimationFrame s).2.invertTrigger = s.invertTrigger ∧
    (requestAnimationFrame s).2.clockReads = s.clockReads ∧
    (requestAnimationFrame s).2.rafPending = (s.rafLast + 1) :: s.rafPending ∧
    (requestAnimationFrame s).2.rafLast = s.rafLast + 1 ∧
    (requestAnimationFrame s).2.bodyInverted = s.bodyInverted ∧
    (requestAnimationFrame s).2.calls = Call.requestAnimationFrame (s.rafLast + 1) :: s.calls := by
  simp [requestAnimationFrame]

@[simp]
theorem cancelAnimationFrame_fields (id : Nat) (s : Runner) :
    (cancelAnimationFrame id s).config = s.config ∧
    (cancelAnimationFrame id s).dimensions = s.dimensions ∧
    (cancelAnimationFrame id s).tRex = s.tRex ∧
    (cancelAnimationFrame id s).horizon = s.horizon ∧
    (cancelAnimationFrame id s).time = s.time ∧
    (cancelAnimationFrame id s).runningTime = s.runningTime ∧
    (cancelAnimationFrame id s).msPerFrame = s.msPerFrame ∧
    (cancelAnimationFrame id s).currentSpeed = s.currentSpeed ∧
    (cancelAnimationFrame id s).activated = s.activated ∧
    (cancelAnimationFrame id s).playing = s.playing ∧
    (cancelAnimationFrame id s).crashed = s.crashed ∧
    (cancelAnimationFrame id s).paused = s.paused ∧
    (cancelAnimationFrame id s).inverted = s.inverted ∧
    (cancelAnimationFrame id s).invertTimer = s.invertTimer ∧
    (cancelAnimationFrame id s).playCount = s.playCount ∧
    (cancelAnimationFrame id s).playingIntro = s.playingIntro ∧
    (cancelAnimationFrame id s).updatePending = s.updatePending ∧
    (cancelAnimationFrame id s).raqId = s.raqId ∧
    (cancelAnimationFrame id s).invertTrigger = s.invertTrigger ∧
    (cancelAnimationFrame id s).clockReads = s.clockReads ∧
    (cancelAnimationFrame id s).rafPending = s.rafPending.filter (fun r => r != id) ∧
    (cancelAnimationFrame id s).rafLast = s.rafLast ∧
    (cancelAnimationFrame id s).bodyInverted = s.bodyInverted ∧
    (cancelAnimationFrame id s).calls = Call.cancelAnimationFrame id :: s.calls := by
  simp [cancelAnimationFrame]

@[simp]
theorem callTrexUpdate_fields (E : Env) (d : ℚ) (st : Option TrexStatus) (s : Runner) :
    (callTrexUpdate E d st s).config = s.config ∧
    (callTrexUpdate E d st s).dimensions = s.dimensions ∧
    (callTrexUpdate E d st s).tRex = E.trexUpdate d st s.tRex ∧
    (callTrexUpdate E d st s).horizon = s.horizon ∧
    (callTrexUpdate E d st s).time = s.time ∧
    (callTrexUpdate E d st s).runningTime = s.runningTime ∧
    (callTrexUpdate E d st s).msPerFrame = s.msPerFrame ∧
    (callTrexUpdate E d st s).currentSpeed = s.currentSpeed ∧
    (callTrexUpdate E d st s).activated = s.activated ∧
    (callTrexUpdate E d st s).playing = s.playing ∧
    (callTrexUpdate E d st s).crashed = s.crashed ∧
    (callTrexUpdate E d st s).paused = s.paused ∧
    (callTrexUpdate E d st s).inverted = s.inverted ∧
    (callTrexUpdate E d st s).invertTimer = s.invertTimer ∧
    (callTrexUpdate E d st s).playCount = s.playCount ∧
    (callTrexUpdate E d st s).playingIntro = s.playingIntro ∧
    (callTrexUpdate E d st s).updatePending = s.updatePending ∧
    (callTrexUpdate E d st s).raqId = s.raqId ∧
    (callTrexUpdate E d st s).invertTrigger = s.invertTrigger ∧
    (callTrexUpdate E d st s).clockReads = s.clockReads ∧
    (callTrexUpdate E d st s).rafPending = s.rafPending ∧
    (callTrexUpdate E d st s).rafLast = s.rafLast ∧
    (callTrexUpdate E d st s).bodyInverted = s.bodyInverted ∧
    (callTrexUpdate E d st s).calls = Call.trexUpdate d st :: s.calls := by
  simp [callTrexUpdate]

@[simp]
theorem callTrexUpdateJump_fields (E : Env) (d : ℚ) (s : Runner) :
    (callTrexUpdateJump E d s).config = s.config ∧
    (callTrexUpdateJump E d s).dimensions = s.dimensions ∧
    (callTrexUpdateJump E d s).tRex = E.trexUpdateJump d s.tRex ∧
    (callTrexUpdateJump E d s).horizon = s.horizon ∧
    (callTrexUpdateJump E d s).time = s.time ∧
    (callTrexUpdateJump E d s).runningTime = s.runningTime ∧
    (callTrexUpdateJump E d s).msPerFrame = s.msPerFrame ∧
    (callTrexUpdateJump E d s).currentSpeed = s.currentSpeed ∧
    (callTrexUpdateJump E d s).activated = s.activated ∧
    (callTrexUpdateJump E d s).playing = s.playing ∧
    (callTrexUpdateJump E d s).crashed = s.crashed ∧
    (callTrexUpdateJump E d s).paused = s.paused ∧
    (callTrexUpdateJump E d s).inverted = s.inverted ∧
    (callTrexUpdateJump E d s).invertTimer = s.invertTimer ∧
    (callTrexUpdateJump E d s).playCount = s.playCount ∧
    (callTrexUpdateJump E d s).playingIntro = s.playingIntro ∧
    (callTrexUpdateJump E d s).updatePending = s.updatePending ∧
    (callTrexUpdateJump E d s).raqId = s.raqId ∧
    (callTrexUpdateJump E d s).invertTrigger = s.invertTrigger ∧
    (callTrexUpdateJump E d s).clockReads = s.clockReads ∧
    (callTrexUpdateJump E d s).rafPending = s.rafPending ∧
    (callTrexUpdateJump E d s).rafLast = s.rafLast ∧
    (callTrexUpdateJump E d s).bodyInverted = s.bodyInverted ∧
    (callTrexUpdateJump E d s).calls = Call.trexUpdateJump d :: s.calls := by
  simp [callTrexUpdateJump]

@[simp]
theorem callTrexStartJump_fields (E : Env) (v : ℚ) (s : Runner) :
    (callTrexStartJump E v s).config = s.config ∧
    (callTrexStartJump E v s).dimensions = s.dimensions ∧
    (callTrexStartJump E v s).tRex = E.trexStartJump v s.tRex ∧
    (callTrexStartJump E v s).horizon = s.horizon ∧
    (callTrexStartJump E v s).time = s.time ∧
    (callTrexStartJump E v s).runningTime = s.runningTime ∧
    (callTrexStartJump E v s).msPerFrame = s.msPerFrame ∧
    (callTrexStartJump E v s).currentSpeed = s.currentSpeed ∧
    (callTrexStartJump E v s).activated = s.activated ∧
    (callTrexStartJump E v s).playing = s.playing ∧
    (callTrexStartJump E v s).crashed = s.crashed ∧
    (callTrexStartJump E v s).paused = s.paused ∧
    (callTrexStartJump E v s).inverted = s.inverted ∧
    (callTrexStartJump E v s).invertTimer = s.invertTimer ∧
    (callTrexStartJump E v s).playCount = s.playCount ∧
    (callTrexStartJump E v s).playingIntro = s.playingIntro ∧
    (callTrexStartJump E v s).updatePending = s.updatePending ∧
    (callTrexStartJump E v s).raqId = s.raqId ∧
    (callTrexStartJump E v s).invertTrigger = s.invertTrigger ∧
    (callTrexStartJump E v s).clockReads = s.clockReads ∧
    (callTrexStartJump E v s).rafPending = s.rafPending ∧
    (callTrexStartJump E v s).rafLast = s.rafLast ∧
    (callTrexStartJump E v s).bodyInverted = s.bodyInverted ∧
    (callTrexStartJump E v s).calls = Call.trexStartJump v :: s.calls := by
  simp [callTrexStartJump]

@[simp]
theorem callTrexReset_fields (E : Env) (s : Runner) :
    (callTrexReset E s).config = s.config ∧
    (callTrexReset E s).dimensions = s.dimensions ∧
    (callTrexReset E s).tRex = E.trexReset s.tRex ∧
    (callTrexReset E s).horizon = s.horizon ∧
    (callTrexReset E s).time = s.time ∧
    (callTrexReset E s).runningTime = s.runningTime ∧
    (callTrexReset E s).msPerFrame = s.msPerFrame ∧
    (callTrexReset E s).currentSpeed = s.currentSpeed ∧
    (callTrexReset E s).activated = s.activated ∧
    (callTrexReset E s).playing = s.playing ∧
    (callTrexReset E s).crashed = s.crashed ∧
    (callTrexReset E s).paused = s.paused ∧
    (callTrexReset E s).inverted = s.inverted ∧
    (callTrexReset E s).invertTimer = s.invertTimer ∧
    (callTrexReset E s).playCount = s.playCount ∧
    (callTrexReset E s).playingIntro = s.playingIntro ∧
    (callTrexReset E s).updatePending = s.updatePending ∧
    (callTrexReset E s).raqId = s.raqId ∧
    (callTrexReset E s).invertTrigger = s.invertTrigger ∧
    (callTrexReset E s).clockReads = s.clockReads ∧
    (callTrexReset E s).rafPending = s.rafPending ∧
    (callTrexReset E s).rafLast = s.rafLast ∧
    (callTrexReset E s).bodyInverted = s.bodyInverted ∧
    (callTrexReset E s).calls = Call.trexReset :: s.calls := by
  simp [callTrexReset]

@[simp]
theorem callHorizonUpdate_fields (E : Env) (d v : ℚ) (h i : Bool) (s : Runner) :
    (callHorizonUpdate E d v h i s).config = s.config ∧
    (callHorizonUpdate E d v h i s).dimensions = s.dimensions ∧
    (callHorizonUpdate E d v h i s).tRex = s.tRex ∧
    (callHorizonUpdate E d v h i s).horizon = E.horizonUpdate d v h i s.horizon ∧
    (callHorizonUpdate E d v h i s).time = s.time ∧
    (callHorizonUpdate E d v h i s).runningTime = s.runningTime ∧
    (callHorizonUpdate E d v h i s).msPerFrame = s.msPerFrame ∧
    (callHorizonUpdate E d v h i s).currentSpeed = s.currentSpeed ∧
    (callHorizonUpdate E d v h i s).activated = s.activated ∧
    (callHorizonUpdate E d v h i s).playing = s.playing ∧
    (callHorizonUpdate E d v h i s).crashed = s.crashed ∧
    (callHorizonUpdate E d v h i s).paused = s.paused ∧
    (callHorizonUpdate E d v h i s).inverted = s.inverted ∧
    (callHorizonUpdate E d v h i s).invertTimer = s.invertTimer ∧
    (callHorizonUpdate E d v h i s).playCount = s.playCount ∧
    (callHorizonUpdate E d v h i s).playingIntro = s.playingIntro ∧
    (callHorizonUpdate E d v h i s).updatePending = s.updatePending ∧
    (callHorizonUpdate E d v h i s).raqId = s.raqId ∧
    (callHorizonUpdate E d v h i s).invertTrigger = s.invertTrigger ∧
    (callHorizonUpdate E d v h i s).clockReads = s.clockReads ∧
    (callHorizonUpdate E d v h i s).rafPending = s.rafPending ∧
    (callHorizonUpdate E d v h i s).rafLast = s.rafLast ∧
    (callHorizonUpdate E d v h i s).bodyInverted = s.bodyInverted ∧
    (callHorizonUpdate E d v h i s).calls = Call.horizonUpdate d v h i :: s.calls := by
  simp [callHorizonUpdate]

@[simp]
theorem callHorizonReset_fields (E : Env) (s : Runner) :
    (callHorizonReset E s).config = s.config ∧
    (callHorizonReset E s).dimensions = s.dimensions ∧
    (callHorizonReset E s).tRex = s.tRex ∧
    (callHorizonReset E s).horizon = E.horizonReset s.horizon ∧
    (callHorizonReset E s).time = s.time ∧
    (callHorizonReset E s).runningTime = s.runningTime ∧
    (callHorizonReset E s).msPerFrame = s.msPerFrame ∧
    (callHorizonReset E s).currentSpeed = s.currentSpeed ∧
    (callHorizonReset E s).activated = s.activated ∧
    (callHorizonReset E s).playing = s.playing ∧
    (callHorizonReset E s).crashed = s.crashed ∧
    (callHorizonReset E s).paused = s.paused ∧
    (callHorizonReset E s).inverted = s.inverted ∧
    (callHorizonReset E s).invertTimer = s.invertTimer ∧
    (callHorizonReset E s).playCount = s.playCount ∧
    (callHorizonReset E s).playingIntro = s.playingIntro ∧
    (callHorizonReset E s).updatePending = s.updatePending ∧
    (callHorizonReset E s).raqId = s.raqId ∧
    (callHorizonReset E s).invertTrigger = s.invertTrigger ∧
    (callHorizonReset E s).clockReads = s.clockReads ∧
    (callHorizonReset E s).rafPending = s.rafPending ∧
    (callHorizonReset E s).rafLast = s.rafLast ∧
    (callHorizonReset E s).bodyInverted = s.bodyInverted ∧
    (callHorizonReset E s).calls = Call.horizonReset :: s.calls := by
  simp [callHorizonReset]

@[simp]
theorem setSpeed_fields (o : Option ℚ) (s : Runner) :
    (setSpeed o s).config = s.config ∧
    (setSpeed o s).dimensions = s.dimensions ∧
    (setSpeed o s).tRex = s.tRex ∧
    (setSpeed o s).horizon = s.horizon ∧
    (setSpeed o s).time = s.time ∧
    (setSpeed o s).runningTime = s.runningTime ∧
    (setSpeed o s).msPerFrame = s.msPerFrame ∧
    (setSpeed o s).activated = s.activated ∧
    (setSpeed o s).playing = s.playing ∧
    (setSpeed o s).crashed = s.crashed ∧
    (setSpeed o s).paused = s.paused ∧
    (setSpeed o s).inverted = s.inverted ∧
    (setSpeed o s).invertTimer = s.invertTimer ∧
    (setSpeed o s).playCount = s.playCount ∧
    (setSpeed o s).playingIntro = s.playingIntro ∧
    (setSpeed o s).updatePending = s.updatePending ∧
    (setSpeed o s).raqId = s.raqId ∧
    (setSpeed o s).invertTrigger = s.invertTrigger ∧
    (setSpeed o s).clockReads = s.clockReads ∧
    (setSpeed o s).rafPending = s.rafPending ∧
    (setSpeed o s).rafLast = s.rafLast ∧
    (setSpeed o s).bodyInverted = s.bodyInverted ∧
    (setSpeed o s).calls = s.calls := by
  unfold setSpeed
  dsimp only
  split
  · simp
  · split <;> simp

@[simp]
theorem startGame_fields (s : Runner) :
    (startGame s).config = s.config ∧
    (startGame s).dimensions = s.dimensions ∧
    (startGame s).tRex = { s.tRex with playingIntro := false } ∧
    (startGame s).horizon = s.horizon ∧
    (startGame s).time = s.time ∧
    (startGame s).runningTime = 0 ∧
    (startGame s).msPerFrame = s.msPerFrame ∧
    (startGame s).currentSpeed = s.currentSpeed ∧
    (startGame s).activated = s.activated ∧
    (startGame s).playing = true ∧
    (startGame s).crashed = s.crashed ∧
    (startGame s).paused = s.paused ∧
    (startGame s).inverted = s.inverted ∧
    (startGame s).invertTimer = s.invertTimer ∧
    (startGame s).playCount = s.playCount + 1 ∧
    (startGame s).playingIntro = false ∧
    (startGame s).updatePending = s.updatePending ∧
    (startGame s).raqId = s.raqId ∧
    (startGame s).invertTrigger = s.invertTrigger ∧
    (startGame s).clockReads = s.clockReads ∧
    (startGame s).rafPending = s.rafPending ∧
    (startGame s).rafLast = s.rafLast ∧
    (startGame s).bodyInverted = s.bodyInverted ∧
    (startGame s).calls = s.calls := by
  simp [startGame]

@[simp]
theorem invert_true_fields (s : Runner) :
    (invert true s).config = s.config ∧
    (invert true s).dimensions = s.dimensions ∧
    (invert true s).tRex = s.tRex ∧
    (invert true s).horizon = s.horizon ∧
    (invert true s).time = s.time ∧
    (invert true s).runningTime = s.runningTime ∧
    (invert true s).msPerFrame = s.msPerFrame ∧
    (invert true s).currentSpeed = s.currentSpeed ∧
    (invert true s).activated = s.activated ∧
    (invert true s).playing = s.playing ∧
    (invert true s).crashed = s.crashed ∧
    (invert true s).paused = s.paused ∧
    (invert true s).inverted = false ∧
    (invert true s).invertTimer = 0 ∧
    (invert true s).playCount = s.playCount ∧
    (invert true s).playingIntro = s.playingIntro ∧
    (invert true s).updatePending = s.updatePending ∧
    (invert true s).raqId = s.raqId ∧
    (invert true s).invertTrigger = s.invertTrigger ∧
    (invert true s).clockReads = s.clockReads ∧
    (invert true s).rafPending = s.rafPending ∧
    (invert true s).rafLast = s.rafLast ∧
    (invert true s).bodyInverted = false ∧
    (invert true s).calls = s.calls := by
  simp [invert]

@[simp]
theorem checkAutoJump_fields (E : Env) (s : Runner) :
    (checkAutoJump E s).config = s.config ∧
    (checkAutoJump E s).dimensions = s.dimensions ∧
    (checkAutoJump E s).horizon = s.horizon ∧
    (checkAutoJump E s).time = s.time ∧
    (checkAutoJump E s).runningTime = s.runningTime ∧
    (checkAutoJump E s).msPerFrame = s.msPerFrame ∧
    (checkAutoJump E s).currentSpeed = s.currentSpeed ∧
    (checkAutoJump E s).activated = s.activated ∧
    (checkAutoJump E s).playing = s.playing ∧
    (checkAutoJump E s).crashed = s.crashed ∧
    (checkAutoJump E s).paused = s.paused ∧
    (checkAutoJump E s).inverted = s.inverted ∧
    (checkAutoJump E s).invertTimer = s.invertTimer ∧
    (checkAutoJump E s).playCount = s.playCount ∧
    (checkAutoJump E s).playingIntro = s.playingIntro ∧
    (checkAutoJump E s).updatePending = s.updatePending ∧
    (checkAutoJump E s).raqId = s.raqId ∧
    (checkAutoJump E s).invertTrigger = s.invertTrigger ∧
    (checkAutoJump E s).clockReads = s.clockReads ∧
    (checkAutoJump E s).rafPending = s.rafPending ∧
    (checkAutoJump E s).rafLast = s.rafLast ∧
    (checkAutoJump E s).bodyInverted = s.bodyInverted := by
  unfold checkAutoJump
  split
  · simp
  · dsimp only
    split <;> simp

theorem checkAutoJump_cases (E : Env) (s : Runner) :
    checkAutoJump E s = callTrexStartJump E s.currentSpeed s ∨ checkAutoJump E s = s := by
  unfold checkAutoJump
  split
  · exact Or.inr rfl
  · dsimp only
    split
    · exact Or.inl rfl
    · exact Or.inr rfl

@[simp]
theorem scheduleNextUpdate_fields (s : Runner) :
    (scheduleNextUpdate s).config = s.config ∧
    (scheduleNextUpdate s).dimensions = s.dimensions ∧
    (scheduleNextUpdate s).tRex = s.tRex ∧
    (scheduleNextUpdate s).horizon = s.horizon ∧
    (scheduleNextUpdate s).time = s.time ∧
    (scheduleNextUpdate s).runningTime = s.runningTime ∧
    (scheduleNextUpdate s).msPerFrame = s.msPerFrame ∧
    (scheduleNextUpdate s).currentSpeed = s.currentSpeed ∧
    (scheduleNextUpdate s).activated = s.activated ∧
    (scheduleNextUpdate s).playing = s.playing ∧
    (scheduleNextUpdate s).crashed = s.crashed ∧
    (scheduleNextUpdate s).paused = s.paused ∧
    (scheduleNextUpdate s).inverted = s.inverted ∧
    (scheduleNextUpdate s).invertTimer = s.invertTimer ∧
    (scheduleNextUpdate s).playCount = s.playCount ∧
    (scheduleNextUpdate s).playingIntro = s.playingIntro ∧
    (scheduleNextUpdate s).updatePending = true ∧
    (scheduleNextUpdate s).invertTrigger = s.invertTrigger ∧
    (scheduleNextUpdate s).clockReads = s.clockReads ∧
    (scheduleNextUpdate s).bodyInverted = s.bodyInverted := by
  unfold scheduleNextUpdate
  split <;> simp_all

@[simp]
theorem stop_fields (s : Runner) :
    (stop s).config = s.config ∧
    (stop s).dimensions = s.dimensions ∧
    (stop s).tRex = s.tRex ∧
    (stop s).horizon = s.horizon ∧
    (stop s).time = s.time ∧
    (stop s).runningTime = s.runningTime ∧
    (stop s).msPerFrame = s.msPerFrame ∧
    (stop s).currentSpeed = s.currentSpeed ∧
    (stop s).activated = s.activated ∧
    (stop s).playing = false ∧
    (stop s).crashed = s.crashed ∧
    (stop s).paused = true ∧
    (stop s).inverted = s.inverted ∧
    (stop s).invertTimer = s.invertTimer ∧
    (stop s).playCount = s.playCount ∧
    (stop s).playingIntro = s.playingIntro ∧
    (stop s).updatePending = s.updatePending ∧
    (stop s).raqId = 0 ∧
    (stop s).invertTrigger = s.invertTrigger ∧
    (stop s).clockReads = s.clockReads ∧
    (stop s).rafPending = s.rafPending.filter (fun r => r != s.raqId) ∧
    (stop s).rafLast = s.rafLast ∧
    (stop s).bodyInverted = s.bodyInverted ∧
    (stop s).calls = Call.cancelAnimationFrame s.raqId :: s.calls := by
  simp [stop]

/-! ## One tick of a runner that is not crashed -/

theorem playIntroWith_eq (E : Env) (f : Runner → Runner) (s : Runner) (hs : s.crashed = false) :
    playIntroWith E f s =
      if s.activated = false then
        { s with
          playingIntro := false
          tRex := { s.tRex with playingIntro := false }
          runningTime := 0
          playCount := s.playCount + 1
          playing := true
          activated := true }
      else s := by
  unfold playIntroWith
  simp [hs, startGame]

theorem playIntroWith_fields (E : Env) (f : Runner → Runner) (s : Runner)
    (hs : s.crashed = false) :
    (playIntroWith E f s).config = s.config ∧
    (playIntroWith E f s).dimensions = s.dimensions ∧
    (playIntroWith E f s).horizon = s.horizon ∧
    (playIntroWith E f s).time = s.time ∧
    (playIntroWith E f s).currentSpeed = s.currentSpeed ∧
    (playIntroWith E f s).crashed = false ∧
    (playIntroWith E f s).inverted = s.inverted ∧
    (playIntroWith E f s).invertTimer = s.invertTimer ∧
    (playIntroWith E f s).updatePending = s.updatePending ∧
    (playIntroWith E f s).raqId = s.raqId ∧
    (playIntroWith E f s).clockReads = s.clockReads ∧
    (playIntroWith E f s).rafPending = s.rafPending ∧
    (playIntroWith E f s).rafLast = s.rafLast ∧
    (playIntroWith E f s).calls = s.calls ∧
    (playIntroWith E f s).runningTime = (if s.activated = false then 0 else s.runningTime) ∧
    (playIntroWith E f s).playing = (if s.activated = false then true else s.playing) ∧
    (playIntroWith E f s).activated = true := by
  rw [playIntroWith_eq E f s hs]
  cases h : s.activated <;> simp [hs, h]

/-- One tick of a runner that is not crashed: the speed goes up by
`ACCELERATION` when playing below `MAX_SPEED` and is unchanged otherwise; the
configuration and the flags `crashed` and `playing` are unchanged. -/
theorem update_speed (E : Env) (s : Runner) (hs : s.crashed = false) :
    (update E s).currentSpeed =
      (if s.playing = true ∧ s.currentSpeed < s.config.MAX_SPEED then
        s.currentSpeed + s.config.ACCELERATION else s.currentSpeed) ∧
    (update E s).config = s.config ∧ (update E s).crashed = false ∧
    (update E s).playing = s.playing := by
  rw [update_of_not_crashed E s hs]
  unfold updateWith playingBlock
  have hI := fun s1 h => playIntroWith_fields E id s1 h
  cases hp : s.playing <;> simp [hs, hp, hI]

theorem ticks_config (E : Env) (n : Nat) (s : Runner) (hs : s.crashed = false) :
    (ticks E n s).config = s.config ∧ (ticks E n s).crashed = false ∧
    (ticks E n s).playing = s.playing := by
  induction n with
  | zero => exact ⟨rfl, hs, rfl⟩
  | succ n ih =>
    obtain ⟨h1, h2, h3⟩ := ih
    obtain ⟨-, k1, k2, k3⟩ := update_speed E (ticks E n s) h2
    exact ⟨by rw [ticks, k1, h1], by rw [ticks, k2], by rw [ticks, k3, h3]⟩

/-! ## The `horizon.update` calls of a tick -/

@[simp]
theorem getTimeStamp_fst (E : Env) (s : Runner) : (getTimeStamp E s).1 = E.clock s.clockReads :=
  rfl


@[simp]
theorem horizonUpdates_ite (c : Prop) [Decidable c] (a b : List Call) :
    horizonUpdates (if c then a else b) = if c then horizonUpdates a else horizonUpdates b := by
  split <;> rfl

@[simp]
theorem horizonUpdates_cons_horizonUpdate (d v : ℚ) (h i : Bool) (cs : List Call) :
    horizonUpdates (Call.horizonUpdate d v h i :: cs) = (d, v, h, i) :: horizonUpdates cs := rfl

@[simp]
theorem horizonUpdates_cons_other (cs : List Call) :
    (∀ d st, horizonUpdates (Call.trexUpdate d st :: cs) = horizonUpdates cs) ∧
    (∀ d, horizonUpdates (Call.trexUpdateJump d :: cs) = horizonUpdates cs) ∧
    (∀ v, horizonUpdates (Call.trexStartJump v :: cs) = horizonUpdates cs) ∧
    horizonUpdates (Call.trexReset :: cs) = horizonUpdates cs ∧
    horizonUpdates (Call.horizonReset :: cs) = horizonUpdates cs ∧
    (∀ id, horizonUpdates (Call.requestAnimationFrame id :: cs) = horizonUpdates cs) ∧
    (∀ id, horizonUpdates (Call.cancelAnimationFrame id :: cs) = horizonUpdates cs) :=
  ⟨fun _ _ => rfl, fun _ => rfl, fun _ => rfl, rfl, rfl, fun _ => rfl, fun _ => rfl⟩

@[simp]
theorem horizonUpdates_checkAutoJump (E : Env) (s : Runner) :
    horizonUpdates (checkAutoJump E s).calls = horizonUpdates s.calls := by
  rcases checkAutoJump_cases E s with h | h <;> rw [h]
  simp

@[simp]
theorem horizonUpdates_scheduleNextUpdate (s : Runner) :
    horizonUpdates (scheduleNextUpdate s).calls = horizonUpdates s.calls := by
  unfold scheduleNextUpdate
  split <;> simp

/-- The newest `horizon.update` call of a playing tick carries the flag
`runningTime > CLEAR_TIME`, with this tick's elapsed time counted in. -/
theorem updateWith_horizonUpdates (E : Env) (self : Runner → Runner) (s : Runner)
    (hp : s.playing = true) :
    ∃ d v i rest, horizonUpdates (updateWith E self s).calls =
      (d, v, decide (s.runningTime + elapsed (E.clock s.clockReads) s.time >
        s.config.CLEAR_TIME), i) :: rest := by
  unfold updateWith playingBlock
  simp [hp]

/-- A playing tick of a runner that is not crashed makes exactly one
`horizon.update` call: with an elapsed time that is `0` or the tick's, the
speed and the inversion flag at the start of the tick, and the flag
`runningTime > CLEAR_TIME`. -/
theorem update_horizonUpdates (E : Env) (s : Runner) (hc : s.crashed = false)
    (hp : s.playing = true) :
    ∃ d, (d = 0 ∨ d = elapsed (E.clock s.clockReads) s.time) ∧
      horizonUpdates (update E s).calls =
        (d, s.currentSpeed, decide (s.runningTime + elapsed (E.clock s.clockReads) s.time >
          s.config.CLEAR_TIME), s.inverted) :: horizonUpdates s.calls := by
  rw [update_of_not_crashed E s hc]
  unfold updateWith playingBlock
  have hI := fun s1 h => playIntroWith_fields E id s1 h
  cases ha : s.activated <;> cases hpi : s.playingIntro <;> simp [hp, hc, hI, ha, hpi]
  tauto
/-! ## The speed that `setSpeed` sets -/

theorem setSpeed_currentSpeed (v : ℚ) (s : Runner) (hv : v ≠ 0) :
    (setSpeed (some v) s).currentSpeed =
      if s.dimensions.WIDTH < DEFAULT_WIDTH then
        min v (v * s.dimensions.WIDTH / DEFAULT_WIDTH * s.config.MOBILE_SPEED_COEFFICIENT)
      else v := by
  unfold setSpeed
  simp only [bne_iff_ne, ne_eq, hv, not_false_eq_true, decide_True, if_true, Option.getD_some]
  split
  · simp only [min_def]
    split <;> split <;> first | rfl | (exfalso; linarith) | (apply le_antisymm <;> linarith)
  · rfl

theorem setSpeed_currentSpeed_congr (o : Option ℚ) (s t : Runner)
    (h1 : t.dimensions = s.dimensions) (h2 : t.config = s.config)
    (h3 : t.currentSpeed = s.currentSpeed) :
    (setSpeed o t).currentSpeed = (setSpeed o s).currentSpeed := by
  unfold setSpeed
  simp only [h1, h2, h3]
  split
  · rfl
  · split <;> simp [h3]

/-! ## Restart and play end with a tick -/

/-- With no frame request held, `restart` is a tick (`update`) of a prepared
state: not crashed, playing, timers reset, the speed set by
`setSpeed(config.SPEED)`, the clock read once, horizon and figure reset. -/
theorem restart_eq_update (E : Env) (s : Runner) (h : s.raqId = 0) :
    ∃ p : Runner, restart E s = update E p ∧
      p.crashed = false ∧ p.playing = true ∧ p.runningTime = 0 ∧
      p.inverted = false ∧ p.invertTimer = 0 ∧
      p.currentSpeed = (setSpeed (some s.config.SPEED) s).currentSpeed ∧
      p.time = E.clock s.clockReads ∧ p.clockReads = s.clockReads + 1 ∧
      p.config = s.config ∧ p.dimensions = s.dimensions ∧ p.activated = s.activated ∧
      p.raqId = 0 ∧ p.rafPending = s.rafPending ∧ p.rafLast = s.rafLast ∧
      p.playCount = s.playCount + 1 ∧
      p.calls = Call.trexReset :: Call.horizonReset :: s.calls := by
  unfold restart restartWith
  rw [if_pos h]
  refine ⟨_, rfl, ?_⟩
  simp [h]
  exact setSpeed_currentSpeed_congr _ _ _ rfl rfl rfl

/-- When not crashed, `play` is a tick (`update`) of a prepared state: playing,
not paused, the figure updated to `RUNNING`, and the stored time rebased to a
fresh reading of the clock. -/
theorem play_eq_update (E : Env) (s : Runner) (h : s.crashed = false) :
    ∃ p : Runner, play E s = update E p ∧
      p.crashed = false ∧ p.playing = true ∧ p.paused = false ∧
      p.runningTime = s.runningTime ∧ p.currentSpeed = s.currentSpeed ∧
      p.time = E.clock s.clockReads ∧ p.clockReads = s.clockReads + 1 ∧
      p.config = s.config ∧ p.activated = s.activated ∧ p.playingIntro = s.playingIntro ∧
      p.tRex = E.trexUpdate 0 (some TrexStatus.RUNNING) s.tRex ∧
      p.raqId = s.raqId ∧ p.rafPending = s.rafPending ∧ p.rafLast = s.rafLast ∧
      p.calls = Call.trexUpdate 0 (some TrexStatus.RUNNING) :: s.calls := by
  unfold play
  rw [if_pos h]
  refine ⟨_, rfl, ?_⟩
  simp [h]

/-! ## The fields after a tick -/

theorem scheduleNextUpdate_of_not_pending (s : Runner) (h : s.updatePending = false) :
    (scheduleNextUpdate s).raqId = s.rafLast + 1 ∧
    (scheduleNextUpdate s).rafLast = s.rafLast + 1 ∧
    (scheduleNextUpdate s).rafPending = (s.rafLast + 1) :: s.rafPending ∧
    (scheduleNextUpdate s).calls = Call.requestAnimationFrame (s.rafLast + 1) :: s.calls := by
  unfold scheduleNextUpdate
  simp [h, requestAnimationFrame]

/-- A tick of a runner that is not crashed reads the clock once and stores
the reading; it leaves the dimensions and the inversion state alone. -/
theorem update_fields (E : Env) (s : Runner) (hc : s.crashed = false) :
    (update E s).time = E.clock s.clockReads ∧
    (update E s).clockReads = s.clockReads + 1 ∧
    (update E s).dimensions = s.dimensions ∧
    (update E s).inverted = s.inverted ∧
    (update E s).invertTimer = s.invertTimer ∧
    (update E s).paused = s.paused := by
  rw [update_of_not_crashed E s hc]
  unfold updateWith playingBlock
  have hE := fun s1 h => playIntroWith_eq E id s1 h
  cases hp : s.playing <;> simp [hc, hp, hE]

/-- The running time after a tick of a runner that is not crashed: unchanged
when not playing; when playing, the tick's elapsed time is added, unless the
tick plays the intro (first jump of a runner not yet activated), which starts
the game and sets the running time to `0`. -/
theorem update_runningTime (E : Env) (s : Runner) (hc : s.crashed = false) :
    (update E s).runningTime =
      if s.playing = true then
        if (if s.tRex.jumping = true then
              E.trexUpdateJump (elapsed (E.clock s.clockReads) s.time) s.tRex
            else s.tRex).jumpCount = 1 ∧ s.playingIntro = false ∧ s.activated = false then 0
        else s.runningTime + elapsed (E.clock s.clockReads) s.time
      else s.runningTime := by
  rw [update_of_not_crashed E s hc]
  unfold updateWith playingBlock
  have hE := fun s1 h => playIntroWith_eq E id s1 h
  cases hp : s.playing <;> cases ha : s.activated <;> cases hpi : s.playingIntro <;>
    simp [hc, hp, ha, hpi, hE]

/-- A playing tick of a runner that is not crashed requests exactly one new
animation frame, whatever was requested before. -/
theorem update_schedule (E : Env) (s : Runner) (hc : s.crashed = false)
    (hp : s.playing = true) :
    (update E s).updatePending = true ∧
    (update E s).raqId = s.rafLast + 1 ∧
    (update E s).rafLast = s.rafLast + 1 ∧
    (update E s).rafPending = (s.rafLast + 1) :: s.rafPending := by
  rw [update_of_not_crashed E s hc]
  unfold updateWith playingBlock
  have hE := fun s1 h => playIntroWith_eq E id s1 h
  have hS := fun s1 h => scheduleNextUpdate_of_not_pending s1 h
  cases ha : s.activated <;> cases hpi : s.playingIntro <;>
    simp [hc, hp, ha, hpi, hE, hS]

/-! ## The timed calls of a tick -/

@[simp]
theorem timedCalls_ite (c : Prop) [Decidable c] (a b : List Call) :
    timedCalls (if c then a else b) = if c then timedCalls a else timedCalls b := by
  split <;> rfl

@[simp]
theorem timedCalls_cons (cs : List Call) :
    (∀ d st, timedCalls (Call.trexUpdate d st :: cs) = Call.trexUpdate d st :: timedCalls cs) ∧
    (∀ d, timedCalls (Call.trexUpdateJump d :: cs) = Call.trexUpdateJump d :: timedCalls cs) ∧
    (∀ d v h i, timedCalls (Call.horizonUpdate d v h i :: cs) =
      Call.horizonUpdate d v h i :: timedCalls cs) ∧
    (∀ v, timedCalls (Call.trexStartJump v :: cs) = timedCalls cs) ∧
    timedCalls (Call.trexReset :: cs) = timedCalls cs ∧
    timedCalls (Call.horizonReset :: cs) = timedCalls cs ∧
    (∀ id, timedCalls (Call.requestAnimationFrame id :: cs) = timedCalls cs) ∧
    (∀ id, timedCalls (Call.cancelAnimationFrame id :: cs) = timedCalls cs) :=
  ⟨fun _ _ => rfl, fun _ => rfl, fun _ _ _ _ => rfl, fun _ => rfl, rfl, rfl,
    fun _ => rfl, fun _ => rfl⟩

@[simp]
theorem timedCalls_checkAutoJump (E : Env) (s : Runner) :
    timedCalls (checkAutoJump E s).calls = timedCalls s.calls := by
  rcases checkAutoJump_cases E s with h | h <;> rw [h]
  simp

@[simp]
theorem timedCalls_scheduleNextUpdate (s : Runner) :
    timedCalls (scheduleNextUpdate s).calls = timedCalls s.calls := by
  unfold scheduleNextUpdate
  split <;> simp

/-- The timed calls of a playing tick of a runner that is not crashed, newest
first: `tRex.update` and `horizon.update`, both with the same elapsed time
(`0` or the tick's), after `tRex.updateJump` with the tick's elapsed time when
the figure is jumping. -/
theorem update_timedCalls (E : Env) (s : Runner) (hc : s.crashed = false)
    (hp : s.playing = true) :
    ∃ d, (d = 0 ∨ d = elapsed (E.clock s.clockReads) s.time) ∧
      timedCalls (update E s).calls =
        Call.trexUpdate d none ::
        Call.horizonUpdate d s.currentSpeed
          (decide (s.runningTime + elapsed (E.clock s.clockReads) s.time > s.config.CLEAR_TIME))
          s.inverted ::
        ((if s.tRex.jumping = true then
            [Call.trexUpdateJump (elapsed (E.clock s.clockReads) s.time)] else []) ++
          timedCalls s.calls) := by
  rw [update_of_not_crashed E s hc]
  unfold updateWith playingBlock
  have hE := fun s1 h => playIntroWith_eq E id s1 h
  cases ha : s.activated <;> cases hpi : s.playingIntro <;> cases hj : s.tRex.jumping <;>
    simp [hc, hp, ha, hpi, hj, hE]
  all_goals tauto

/-- With no frame request held, the tick that `restart` runs makes exactly one
`horizon.update` call, with the speed that `setSpeed(config.SPEED)` sets and
with the inversion flag cleared. -/
theorem restart_horizonUpdates (E : Env) (s : Runner) (h : s.raqId = 0) :
    ∃ d f, horizonUpdates (restart E s).calls =
      (d, (setSpeed (some s.config.SPEED) s).currentSpeed, f, false) ::
        horizonUpdates s.calls := by
  obtain ⟨p, hr, hc, hp, -, hi, -, hv, -, -, -, -, -, -, -, -, -, hcalls⟩ :=
    restart_eq_update E s h
  obtain ⟨d, -, hd⟩ := update_horizonUpdates E p hc hp
  refine ⟨d,
    decide (p.runningTime + elapsed (E.clock p.clockReads) p.time > p.config.CLEAR_TIME), ?_⟩
  rw [hr, hd, hv, hi, hcalls]
  simp

/-- The running time after `play` of a runner that is not crashed: the tick
that `play` runs adds the time elapsed since `play` read the clock, unless it
plays the intro, which sets the running time to `0`. -/
theorem play_runningTime (E : Env) (s : Runner) (hc : s.crashed = false) :
    (play E s).runningTime =
      if (if (E.trexUpdate 0 (some TrexStatus.RUNNING) s.tRex).jumping = true then
            E.trexUpdateJump (elapsed (E.clock (s.clockReads + 1)) (E.clock s.clockReads))
              (E.trexUpdate 0 (some TrexStatus.RUNNING) s.tRex)
          else E.trexUpdate 0 (some TrexStatus.RUNNING) s.tRex).jumpCount = 1 ∧
          s.playingIntro = false ∧ s.activated = false then 0
      else s.runningTime + elapsed (E.clock (s.clockReads + 1)) (E.clock s.clockReads) := by
  obtain ⟨p, hr, hpc, hpp, -, hrt, -, ht, hn, -, ha, hpi, htr, -⟩ := play_eq_update E s hc
  rw [hr, update_runningTime E p hpc, if_pos hpp, hrt, ht, hn, ha, hpi, htr]

/-- With no frame request held, `restart` leaves the runner playing and not
crashed, with the inversion state cleared, the running time at `0` or at the
elapsed time of its own tick, and exactly one new frame request. -/
theorem restart_fields (E : Env) (s : Runner) (h : s.raqId = 0) :
    (restart E s).crashed = false ∧ (restart E s).playing = true ∧
    (restart E s).invertTimer = 0 ∧ (restart E s).inverted = false ∧
    ((restart E s).runningTime = 0 ∨
      (restart E s).runningTime =
        elapsed (E.clock (s.clockReads + 1)) (E.clock s.clockReads)) ∧
    (restart E s).updatePending = true ∧
    (restart E s).raqId = s.rafLast + 1 ∧
    (restart E s).rafPending = (s.rafLast + 1) :: s.rafPending := by
  obtain ⟨p, hr, hc, hp, hrt, hi, hit, -, ht, hn, -, -, -, -, hpend, hlast, -, -⟩ :=
    restart_eq_update E s h
  obtain ⟨-, -, k2, k3⟩ := update_speed E p hc
  obtain ⟨-, -, -, f4, f5, -⟩ := update_fields E p hc
  obtain ⟨g1, g2, -, g4⟩ := update_schedule E p hc hp
  have hrun := update_runningTime E p hc
  rw [if_pos hp, hrt, ht, hn, zero_add] at hrun
  rw [hr]
  refine ⟨k2, by rw [k3, hp], by rw [f5, hit], by rw [f4, hi], ?_, g1, by rw [g2, hlast],
    by rw [g4, hlast, hpend]⟩
  rw [hrun]
  have key : ∀ (c : Prop) [Decidable c] (x : ℚ),
      (if c then (0 : ℚ) else x) = 0 ∨ (if c then (0 : ℚ) else x) = x := by
    intro c _ x
    by_cases hq : c
    · exact Or.inl (if_pos hq)
    · exact Or.inr (if_neg hq)
  exact key _ _

/-- When not crashed, `play` requests exactly one new animation frame,
whatever was requested before. -/
theorem play_schedule (E : Env) (s : Runner) (hc : s.crashed = false) :
    (play E s).crashed = false ∧
    (play E s).raqId = s.rafLast + 1 ∧
    (play E s).rafLast = s.rafLast + 1 ∧
    (play E s).rafPending = (s.rafLast + 1) :: s.rafPending := by
  obtain ⟨p, hr, hpc, hpp, -, -, -, -, -, -, -, -, -, -, hpend, hlast, -⟩ :=
    play_eq_update E s hc
  obtain ⟨-, -, k2, -⟩ := update_speed E p hpc
  obtain ⟨-, g2, g3, g4⟩ := update_schedule E p hpc hpp
  rw [hr]
  exact ⟨k2, by rw [g2, hlast], by rw [g3, hlast], by rw [g4, hlast, hpend]⟩

/-- When the methods of the figure leave its jump count alone, a tick of a
runner that is not crashed and whose figure has not completed its first jump
leaves the jump count and the flags `activated` and `playingIntro`. -/
theorem update_jumpCount (E : Env) (s : Runner) (hc : s.crashed = false)
    (hj : s.tRex.jumpCount ≠ 1)
    (h1 : ∀ d st t, (E.trexUpdate d st t).jumpCount = t.jumpCount)
    (h2 : ∀ d t, (E.trexUpdateJump d t).jumpCount = t.jumpCount)
    (h3 : ∀ v t, (E.trexStartJump v t).jumpCount = t.jumpCount) :
    (update E s).tRex.jumpCount = s.tRex.jumpCount ∧
    (update E s).activated = s.activated ∧
    (update E s).playingIntro = s.playingIntro := by
  have hA : ∀ r : Runner, (checkAutoJump E r).tRex.jumpCount = r.tRex.jumpCount := by
    intro r
    rcases checkAutoJump_cases E r with h | h <;> rw [h]
    simp [h3]
  have hT : ∀ (c : Prop) [Decidable c] (a b : Trex),
      (if c then a else b).jumpCount = if c then a.jumpCount else b.jumpCount := by
    intro c _ a b
    split <;> rfl
  rw [update_of_not_crashed _ s hc]
  unfold updateWith playingBlock
  cases hp : s.playing <;> simp [hc, hp, hA, hj, h1, h2, h3, hT]

/-- When the methods of the figure leave its position alone and
`horizon.update` leaves the obstacles alone, so does a tick of a runner that is
not crashed. -/
theorem update_positions (E : Env) (s : Runner) (hc : s.crashed = false)
    (h1 : ∀ d st t, (E.trexUpdate d st t).xPos = t.xPos ∧ (E.trexUpdate d st t).yPos = t.yPos)
    (h2 : ∀ d t, (E.trexUpdateJump d t).xPos = t.xPos ∧ (E.trexUpdateJump d t).yPos = t.yPos)
    (h3 : ∀ v t, (E.trexStartJump v t).xPos = t.xPos ∧ (E.trexStartJump v t).yPos = t.yPos)
    (h4 : ∀ d v f i h, (E.horizonUpdate d v f i h).obstacles = h.obstacles) :
    (update E s).tRex.xPos = s.tRex.xPos ∧ (update E s).tRex.yPos = s.tRex.yPos ∧
    (update E s).horizon.obstacles = s.horizon.obstacles := by
  have hA : ∀ r : Runner, (checkAutoJump E r).tRex.xPos = r.tRex.xPos ∧
      (checkAutoJump E r).tRex.yPos = r.tRex.yPos := by
    intro r
    rcases checkAutoJump_cases E r with h | h <;> rw [h]
    · simp [h3]
    · exact ⟨rfl, rfl⟩
  have hT : ∀ (c : Prop) [Decidable c] (a b : Trex),
      (if c then a else b).xPos = (if c then a.xPos else b.xPos) ∧
      (if c then a else b).yPos = (if c then a.yPos else b.yPos) := by
    intro c _ a b
    split <;> exact ⟨rfl, rfl⟩
  have hH : ∀ (c : Prop) [Decidable c] (a b : Horizon),
      (if c then a else b).obstacles = if c then a.obstacles else b.obstacles := by
    intro c _ a b
    split <;> rfl
  have hE := fun s1 h => playIntroWith_eq E id s1 h
  rw [update_of_not_crashed _ s hc]
  unfold updateWith playingBlock
  cases hp : s.playing <;> simp [hc, hp, hA, h1, h2, h3, h4, hT, hH, hE]

/-! ## Tables of named values -/

theorem lookup_assocSet (name : String) (value : JSVal) (l : List (String × JSVal)) :
    (assocSet name value l).lookup name = some value ∧
    ∀ other, other ≠ name → (assocSet name value l).lookup other = l.lookup other := by
  induction l with
  | nil =>
    refine ⟨by simp [assocSet, List.lookup], fun other hne => ?_⟩
    simp [assocSet, List.lookup, beq_false_of_ne hne]
  | cons e rest ih =>
    obtain ⟨n, v⟩ := e
    by_cases hn : n = name
    · subst hn
      refine ⟨by simp [assocSet, List.lookup], fun other hne => ?_⟩
      simp [assocSet, List.lookup, beq_false_of_ne hne]
    · refine ⟨?_, fun other hne => ?_⟩
      · have hb : (name == n) = false := beq_false_of_ne (Ne.symm hn)
        simp [assocSet, hn, List.lookup, hb, ih.1]
      · simp only [assocSet, if_neg hn, List.lookup]
        split
        · rfl
        · exact ih.2 other hne

theorem checkAutoJump_of_no_obstacles (E : Env) (s : Runner) (h : s.horizon.obstacles = []) :
    checkAutoJump E s = s := by
  unfold checkAutoJump
  rw [h]

/-- A playing tick of a runner that is not crashed, whose figure is not
jumping and has not completed its first jump, on a horizon that stays without
obstacles: the figure is only updated, the horizon only advanced, and the flags
`activated` and `playingIntro` are as before. -/
theorem update_idle (E : Env) (s : Runner) (hc : s.crashed = false) (hp : s.playing = true)
    (hj : s.tRex.jumping = false) (hn : s.tRex.jumpCount ≠ 1)
    (ho : ∀ d v f i, (E.horizonUpdate d v f i s.horizon).obstacles = []) :
    (update E s).tRex =
      E.trexUpdate (if s.activated = false then 0 else elapsed (E.clock s.clockReads) s.time)
        none s.tRex ∧
    (update E s).horizon =
      E.horizonUpdate (if s.activated = false then 0 else elapsed (E.clock s.clockReads) s.time)
        s.currentSpeed
        (decide (s.runningTime + elapsed (E.clock s.clockReads) s.time > s.config.CLEAR_TIME))
        s.inverted s.horizon ∧
    (update E s).activated = s.activated ∧
    (update E s).playingIntro = s.playingIntro := by
  have hA := fun r h => checkAutoJump_of_no_obstacles E r h
  rw [update_of_not_crashed E s hc]
  unfold updateWith playingBlock
  simp [hc, hp, hj, hn, hA, ho]

/-! ## A game paused in its first jump -/

theorem paused_in_first_jump_facts :
    runnerPausedInFirstJump.crashed = false ∧
    runnerPausedInFirstJump.runningTime = 16 ∧
    runnerPausedInFirstJump.clockReads = 2 ∧
    runnerPausedInFirstJump.activated = false ∧
    runnerPausedInFirstJump.playingIntro = false ∧
    runnerPausedInFirstJump.tRex =
      { trex0 with jumping := true, status := TrexStatus.JUMPING } := by
  have hE : ∀ d st t, envLanding.trexUpdate d st t = t := fun _ _ _ => rfl
  have hH : ∀ d v f i h, envLanding.horizonUpdate d v f i h = h := fun _ _ _ _ _ => rfl
  -- the first tick
  obtain ⟨-, -, a1c, a1p⟩ := update_speed envLanding runner0 rfl
  obtain ⟨a1t, a1n, -⟩ := update_fields envLanding runner0 rfl
  have a1r := update_runningTime envLanding runner0 rfl
  obtain ⟨a1x, a1h, a1a, a1i⟩ := update_idle envLanding runner0 rfl rfl rfl (by decide)
    (fun _ _ _ _ => rfl)
  rw [hE] at a1x
  rw [hH] at a1h
  have a1r' : (update envLanding runner0).runningTime = 0 := by
    rw [a1r]
    norm_num [envLanding, env0, runner0, startGame, Runner.new, trex0, elapsed]
  have a1t' : (update envLanding runner0).time = 1000 := by
    rw [a1t]
    norm_num [envLanding, env0, runner0, startGame, Runner.new]
  have a1p' : (update envLanding runner0).playing = true := a1p
  have a1j : (update envLanding runner0).tRex.jumping = false := by rw [a1x]; rfl
  have a1k : (update envLanding runner0).tRex.jumpCount ≠ 1 := by rw [a1x]; decide
  -- the second tick
  obtain ⟨-, -, a2c, -⟩ := update_speed envLanding _ a1c
  obtain ⟨-, a2n, -⟩ := update_fields envLanding _ a1c
  have a2r := update_runningTime envLanding _ a1c
  obtain ⟨a2x, -, a2a, a2i⟩ := update_idle envLanding _ a1c a1p' a1j a1k
    (fun _ _ _ _ => by rw [hH, a1h]; rfl)
  rw [hE, a1x] at a2x
  have k1 : envLanding.clock (runner0.clockReads + 1) = 1016 := by
    norm_num [envLanding, env0, runner0, startGame, Runner.new]
  have a2r' : (update envLanding (update envLanding runner0)).runningTime = 16 := by
    rw [a2r, if_pos a1p', a1r', a1t', a1n, k1, a1x, a1a, a1i]
    norm_num [runner0, startGame, Runner.new, trex0, elapsed]
  -- the automatic first jump, then stop
  have a2j : (update envLanding (update envLanding runner0)).tRex.jumping = false := by
    rw [a2x]; rfl
  have a3 : autoStart envLanding (update envLanding (update envLanding runner0)) =
      callTrexStartJump envLanding (update envLanding (update envLanding runner0)).currentSpeed
        (update envLanding (update envLanding runner0)) := by
    unfold autoStart
    rw [if_pos a2j]
  unfold runnerPausedInFirstJump
  rw [a3]
  refine ⟨by simpa using a2c, by simpa using a2r', ?_, ?_, ?_, ?_⟩
  · simp [a2n, a1n]
    rfl
  · simp [a2a, a1a]
    rfl
  · simp [a2i, a1i]
    rfl
  · simp [a2x]
    rfl

/-! ## The debug setter and `setSpeed` -/

/-- On numbers the dynamically typed `setSpeed` is `setSpeed`: for a runner
`s`, whatever else its configuration table holds beside the mobile speed
coefficient. -/
theorem setSpeed_js_num (J : JS) (s : Runner) (q : ℚ) (table : List (String × JSVal))
    (h : JS.read table "MOBILE_SPEED_COEFFICIENT" =
      JSVal.num s.config.MOBILE_SPEED_COEFFICIENT) :
    (JSRunner.setSpeed J (JSVal.num q) { s.js with config := table }).currentSpeed =
      JSVal.num (setSpeed (some q) s).currentSpeed := by
  have hd : DEFAULT_WIDTH ≠ 0 := by norm_num [DEFAULT_WIDTH]
  unfold JSRunner.setSpeed setSpeed
  by_cases hq : q = 0 <;> by_cases hw : s.dimensions.WIDTH < DEFAULT_WIDTH <;>
    simp [hq, hw, h, Runner.js, JSVal.truthy, J.mul_num, J.div_num _ _ hd, J.gt_num]
  all_goals split <;> rfl

theorem Config.read_entries_MOBILE_SPEED_COEFFICIENT (c : Config) (value : JSVal) :
    JS.read (JS.store "SPEED" value c.entries) "MOBILE_SPEED_COEFFICIENT" =
      JSVal.num c.MOBILE_SPEED_COEFFICIENT := by
  have h := (lookup_assocSet "SPEED" value c.entries).2 "MOBILE_SPEED_COEFFICIENT" (by decide)
  unfold JS.read JS.store
  rw [if_neg (by decide), h]
  simp [Config.entries, List.lookup]

theorem JS.lookup_store (name : String) (value : JSVal) (table : List (String × JSVal)) :
    (name ≠ "__proto__" → (JS.store name value table).lookup name = some value) ∧
    (name = "__proto__" → JS.store name value table = table) ∧
    ∀ other, other ≠ name →
      (JS.store name value table).lookup other = table.lookup other := by
  unfold JS.store
  by_cases h : name = "__proto__"
  · simp [h]
  · simp only [if_neg h]
    exact ⟨fun _ => (lookup_assocSet name value table).1, fun h1 => absurd h1 h,
      (lookup_assocSet name value table).2⟩

theorem setSpeed_js_fields (J : JS) (opt_speed : JSVal) (d : JSRunner) :
    (JSRunner.setSpeed J opt_speed d).config = d.config ∧
    (JSRunner.setSpeed J opt_speed d).dimensions = d.dimensions ∧
    (JSRunner.setSpeed J opt_speed d).tRex = d.tRex ∧
    (JSRunner.setSpeed J opt_speed d).calls = d.calls := by
  unfold JSRunner.setSpeed
  dsimp only
  split_ifs <;> exact ⟨rfl, rfl, rfl, rfl⟩

theorem JS.read_store_of_ne (name other : String) (value : JSVal)
    (table : List (String × JSVal)) (h : other ≠ name) :
    JS.read (JS.store name value table) other = JS.read table other := by
  unfold JS.read
  rw [(JS.lookup_store name value table).2.2 other h]

/-! ## C1: the automatic jump -/

/-- C1. For every runner state, `checkAutoJump` calls `tRex.startJump` with the
current speed if and only if the obstacle list is non-empty, the distance
`obstacles[0].xPos - tRex.xPos` is strictly between `0` and
`config.AUTO_JUMP_DISTANCE`, and the figure is neither jumping nor ducking;
and it does either exactly that call or nothing at all. -/
theorem checkAutoJump_iff (E : Env) (s : Runner) :
    ((∃ o rest, s.horizon.obstacles = o :: rest ∧ 0 < o.xPos - s.tRex.xPos ∧
          o.xPos - s.tRex.xPos < s.config.AUTO_JUMP_DISTANCE ∧
          s.tRex.jumping = false ∧ s.tRex.ducking = false) ↔
        checkAutoJump E s = callTrexStartJump E s.currentSpeed s) ∧
    (checkAutoJump E s = callTrexStartJump E s.currentSpeed s ↔
        (checkAutoJump E s).calls = Call.trexStartJump s.currentSpeed :: s.calls) ∧
    (checkAutoJump E s = callTrexStartJump E s.currentSpeed s ∨ checkAutoJump E s = s) := by
  have hne : ∀ c : Call, s.calls ≠ c :: s.calls := fun c h => by
    have := congrArg List.length h
    simp at this
  have hne2 : s ≠ callTrexStartJump E s.currentSpeed s := fun h => by
    have := congrArg Runner.calls h
    exact hne (Call.trexStartJump s.currentSpeed) this
  unfold checkAutoJump
  cases hobs : s.horizon.obstacles with
  | nil =>
    refine ⟨⟨?_, ?_⟩, ⟨?_, ?_⟩, Or.inr rfl⟩
    · rintro ⟨o, rest, h, -⟩
      cases h
    · intro h
      exact absurd h hne2
    · intro h
      exact absurd h hne2
    · intro h
      exact absurd h (hne _)
  | cons o rest =>
    dsimp only
    split
    next hc =>
      refine ⟨⟨fun _ => rfl, fun _ => ⟨o, rest, rfl, hc⟩⟩, ⟨fun _ => ?_, fun _ => rfl⟩,
        Or.inl rfl⟩
      simp [callTrexStartJump]
    next hc =>
      refine ⟨⟨?_, ?_⟩, ⟨?_, ?_⟩, Or.inr rfl⟩
      · rintro ⟨o2, rest2, h, h2⟩
        cases h
        exact absurd h2 hc
      · intro h
        exact absurd h hne2
      · intro h
        exact absurd h hne2
      · intro h
        exact absurd h (hne _)

/-- The auto-jump scenario of the spec, threshold 120: an obstacle 80 ahead of
a grounded figure that is not ducking makes it jump; an obstacle 150 ahead
does not; an obstacle 80 ahead of a figure that jumps already does not. -/
theorem checkAutoJump_scenario :
    (runnerAt 80 false).config.AUTO_JUMP_DISTANCE = 120 ∧
    (checkAutoJump env0 (runnerAt 80 false)).calls = [Call.trexStartJump 6] ∧
    (checkAutoJump env0 (runnerAt 80 false)).tRex.jumping = true ∧
    checkAutoJump env0 (runnerAt 150 false) = runnerAt 150 false ∧
    checkAutoJump env0 (runnerAt 80 true) = runnerAt 80 true := by
  refine ⟨rfl, ?_, ?_, ?_, ?_⟩
  · have h := ((checkAutoJump_iff env0 (runnerAt 80 false)).1.mp
      ⟨_, _, rfl, by norm_num [runnerAt, runner0, startGame, Runner.new, trex0, RunnerConfig]⟩)
    rw [h]
    rfl
  · have h := ((checkAutoJump_iff env0 (runnerAt 80 false)).1.mp
      ⟨_, _, rfl, by norm_num [runnerAt, runner0, startGame, Runner.new, trex0, RunnerConfig]⟩)
    rw [h]
    rfl
  · norm_num [checkAutoJump, runnerAt, runner0, startGame, Runner.new, trex0, RunnerConfig]
  · norm_num [checkAutoJump, runnerAt, runner0, startGame, Runner.new, trex0, RunnerConfig]

/-! ## C2: the speed and `MAX_SPEED` -/

/-- C2, as stated, fails: a playing runner at speed 12.9995, below
`MAX_SPEED = 13`, is at 13.0005 after one tick (`ACCELERATION = 0.001`). -/
theorem speed_exceeds_max_speed :
    runnerNearMax.playing = true ∧ runnerNearMax.crashed = false ∧
    runnerNearMax.config.MAX_SPEED = 13 ∧
    runnerNearMax.currentSpeed ≤ runnerNearMax.config.MAX_SPEED ∧
    (ticks env0 1 runnerNearMax).currentSpeed = 130005 / 10000 ∧
    ¬ (ticks env0 1 runnerNearMax).currentSpeed ≤ runnerNearMax.config.MAX_SPEED := by
  have h := (update_speed env0 runnerNearMax rfl).1
  have e : (ticks env0 1 runnerNearMax).currentSpeed = 130005 / 10000 := by
    show (update env0 runnerNearMax).currentSpeed = _
    rw [h]
    norm_num [runnerNearMax, runner0, startGame, Runner.new, RunnerConfig]
  refine ⟨rfl, rfl, rfl, ?_, e, ?_⟩
  · norm_num [runnerNearMax, runner0, startGame, Runner.new, RunnerConfig]
  · rw [e]
    norm_num [runnerNearMax, runner0, startGame, Runner.new, RunnerConfig]

/-- C2, amended. In a continuous session of a runner that is not crashed and
starts with `currentSpeed ≤ MAX_SPEED`, after every tick the speed is at most
`MAX_SPEED` or at most `MAX_SPEED + ACCELERATION`: the last step may pass
`MAX_SPEED`, by no more than the step from `MAX_SPEED` itself.  The bound is
not strict, so that it does not depend on the sum being exact: a tick raises
the speed only from below `MAX_SPEED`, and adding `ACCELERATION` keeps the
order, also when the sum is rounded. -/
theorem speed_bounded (E : Env) (s : Runner) (n : Nat) (hc : s.crashed = false)
    (h : s.currentSpeed ≤ s.config.MAX_SPEED) :
    (ticks E n s).currentSpeed ≤ s.config.MAX_SPEED ∨
      (ticks E n s).currentSpeed ≤ s.config.MAX_SPEED + s.config.ACCELERATION := by
  induction n with
  | zero => exact Or.inl h
  | succ n ih =>
    obtain ⟨h1, h2, -⟩ := ticks_config E n s hc
    have k := (update_speed E (ticks E n s) h2).1
    rw [h1] at k
    show (update E (ticks E n s)).currentSpeed ≤ _ ∨ (update E (ticks E n s)).currentSpeed ≤ _
    rw [k]
    split
    next hlt => exact Or.inr (add_le_add_right (le_of_lt hlt.2) _)
    next => exact ih

theorem speed_bounded_witness :
    runnerNearMax.crashed = false ∧
    runnerNearMax.currentSpeed ≤ runnerNearMax.config.MAX_SPEED ∧
    ((ticks env0 1 runnerNearMax).currentSpeed ≤ runnerNearMax.config.MAX_SPEED ∨
      (ticks env0 1 runnerNearMax).currentSpeed ≤
        runnerNearMax.config.MAX_SPEED + runnerNearMax.config.ACCELERATION) :=
  ⟨rfl, by norm_num [runnerNearMax, runner0, startGame, Runner.new, RunnerConfig],
    speed_bounded env0 runnerNearMax 1 rfl
      (by norm_num [runnerNearMax, runner0, startGame, Runner.new, RunnerConfig])⟩

/-! ## C3: the speed never goes down -/

/-- C3, as stated, fails: with `ACCELERATION = -1` a playing runner at speed 6
is at speed 5 after one tick. -/
theorem speed_decreases_with_negative_acceleration :
    runnerSlowing.playing = true ∧ runnerSlowing.crashed = false ∧
    (ticks env0 0 runnerSlowing).currentSpeed = 6 ∧
    (ticks env0 1 runnerSlowing).currentSpeed = 5 ∧
    ¬ (ticks env0 0 runnerSlowing).currentSpeed ≤ (ticks env0 1 runnerSlowing).currentSpeed := by
  have h := (update_speed env0 runnerSlowing rfl).1
  have e : (ticks env0 1 runnerSlowing).currentSpeed = 5 := by
    show (update env0 runnerSlowing).currentSpeed = _
    rw [h]
    norm_num [runnerSlowing, runner0, startGame, Runner.new, RunnerConfig]
  have e0 : (ticks env0 0 runnerSlowing).currentSpeed = 6 := by
    norm_num [ticks, runnerSlowing, runner0, startGame, Runner.new, RunnerConfig]
  refine ⟨rfl, rfl, e0, e, ?_⟩
  rw [e, e0]
  norm_num

/-- C3, amended. When `ACCELERATION` is not negative, in a continuous session
of a runner that is not crashed the speed after a later tick is at least the
speed after an earlier tick. -/
theorem speed_monotone (E : Env) (s : Runner) (m n : Nat) (hc : s.crashed = false)
    (ha : 0 ≤ s.config.ACCELERATION) (hmn : m ≤ n) :
    (ticks E m s).currentSpeed ≤ (ticks E n s).currentSpeed := by
  induction n, hmn using Nat.le_induction with
  | base => exact le_refl _
  | succ n _ ih =>
    obtain ⟨h1, h2, -⟩ := ticks_config E n s hc
    have k := (update_speed E (ticks E n s) h2).1
    rw [h1] at k
    refine le_trans ih ?_
    show _ ≤ (update E (ticks E n s)).currentSpeed
    rw [k]
    split
    · linarith
    · exact le_refl _

theorem speed_monotone_witness :
    runnerNearMax.crashed = false ∧ 0 ≤ runnerNearMax.config.ACCELERATION ∧ 1 ≤ 3 ∧
    (ticks env0 1 runnerNearMax).currentSpeed ≤ (ticks env0 3 runnerNearMax).currentSpeed :=
  ⟨rfl, by norm_num [runnerNearMax, runner0, startGame, Runner.new, RunnerConfig], by decide,
    speed_monotone env0 runnerNearMax 1 3 rfl
      (by norm_num [runnerNearMax, runner0, startGame, Runner.new, RunnerConfig]) (by decide)⟩

/-! ## C4: the speed after restart -/

/-- C4, as stated, fails: on a display 400 wide, `restart` of a crashed game
with `config.SPEED = 6` runs a tick that advances the world with speed 4.8. -/
theorem restart_speed_on_narrow_display :
    runnerCrashedNarrow.crashed = true ∧ runnerCrashedNarrow.raqId = 0 ∧
    runnerCrashedNarrow.config.SPEED = 6 ∧ runnerCrashedNarrow.dimensions.WIDTH = 400 ∧
    (horizonUpdates (restart env0 runnerCrashedNarrow).calls).map (fun u => u.2.1) = [24 / 5] := by
  refine ⟨rfl, rfl, rfl, rfl, ?_⟩
  obtain ⟨d, f, h⟩ := restart_horizonUpdates env0 runnerCrashedNarrow rfl
  rw [h, setSpeed_currentSpeed _ _ (by norm_num [runnerCrashedNarrow, runner0, startGame,
    Runner.new, RunnerConfig])]
  norm_num [runnerCrashedNarrow, runner0, startGame, Runner.new, RunnerConfig, DEFAULT_WIDTH,
    horizonUpdates]

/-- C4, amended. When `restart` runs (no frame request held) with a non-zero
`config.SPEED`, whatever the prior speed, its tick makes one `horizon.update`
call, and the speed it passes is `config.SPEED` on a display at least
`DEFAULT_WIDTH` wide and `min(SPEED, SPEED * WIDTH / DEFAULT_WIDTH *
MOBILE_SPEED_COEFFICIENT)` on a narrower one. -/
theorem restart_speed (E : Env) (s : Runner) (h : s.raqId = 0) (hv : s.config.SPEED ≠ 0) :
    ∃ d f, horizonUpdates (restart E s).calls =
      (d,
        (if s.dimensions.WIDTH < DEFAULT_WIDTH then
          min s.config.SPEED
            (s.config.SPEED * s.dimensions.WIDTH / DEFAULT_WIDTH *
              s.config.MOBILE_SPEED_COEFFICIENT)
        else s.config.SPEED),
        f, false) :: horizonUpdates s.calls := by
  obtain ⟨d, f, hd⟩ := restart_horizonUpdates E s h
  exact ⟨d, f, by rw [hd, setSpeed_currentSpeed _ _ hv]⟩

theorem restart_speed_witness :
    runnerCrashedNarrow.raqId = 0 ∧ runnerCrashedNarrow.config.SPEED ≠ 0 ∧
    ∃ d f, horizonUpdates (restart env0 runnerCrashedNarrow).calls =
      (d,
        (if runnerCrashedNarrow.dimensions.WIDTH < DEFAULT_WIDTH then
          min runnerCrashedNarrow.config.SPEED
            (runnerCrashedNarrow.config.SPEED * runnerCrashedNarrow.dimensions.WIDTH /
              DEFAULT_WIDTH * runnerCrashedNarrow.config.MOBILE_SPEED_COEFFICIENT)
        else runnerCrashedNarrow.config.SPEED),
        f, false) :: horizonUpdates runnerCrashedNarrow.calls :=
  ⟨rfl, by norm_num [runnerCrashedNarrow, runner0, startGame, Runner.new, RunnerConfig],
    restart_speed env0 runnerCrashedNarrow rfl
      (by norm_num [runnerCrashedNarrow, runner0, startGame, Runner.new, RunnerConfig])⟩

/-! ## C5: `setSpeed` on narrow and wide displays -/

/-- C5. For every positive requested speed `v`: on a display narrower than
`DEFAULT_WIDTH`, `setSpeed(v)` leaves `currentSpeed = min(v, v * WIDTH /
DEFAULT_WIDTH * MOBILE_SPEED_COEFFICIENT)`, which never exceeds `v`; on a
display at least `DEFAULT_WIDTH` wide it leaves `currentSpeed = v`. -/
theorem setSpeed_effective (s : Runner) (v : ℚ) (hv : 0 < v) :
    (s.dimensions.WIDTH < DEFAULT_WIDTH →
      (setSpeed (some v) s).currentSpeed =
          min v (v * s.dimensions.WIDTH / DEFAULT_WIDTH * s.config.MOBILE_SPEED_COEFFICIENT) ∧
        (setSpeed (some v) s).currentSpeed ≤ v) ∧
    (DEFAULT_WIDTH ≤ s.dimensions.WIDTH → (setSpeed (some v) s).currentSpeed = v) := by
  have h := setSpeed_currentSpeed v s (ne_of_gt hv)
  constructor
  · intro hw
    rw [h, if_pos hw]
    exact ⟨rfl, min_le_left _ _⟩
  · intro hw
    rw [h, if_neg (not_lt.mpr hw)]

theorem setSpeed_effective_witness :
    (0 : ℚ) < 6 ∧
    (runnerCrashedNarrow.dimensions.WIDTH < DEFAULT_WIDTH →
      (setSpeed (some 6) runnerCrashedNarrow).currentSpeed =
          min 6 (6 * runnerCrashedNarrow.dimensions.WIDTH / DEFAULT_WIDTH *
            runnerCrashedNarrow.config.MOBILE_SPEED_COEFFICIENT) ∧
        (setSpeed (some 6) runnerCrashedNarrow).currentSpeed ≤ 6) ∧
    (DEFAULT_WIDTH ≤ runnerCrashedNarrow.dimensions.WIDTH →
      (setSpeed (some 6) runnerCrashedNarrow).currentSpeed = 6) :=
  ⟨by norm_num, setSpeed_effective runnerCrashedNarrow 6 (by norm_num)⟩

/-! ## C6: the first tick -/

/-- C6. In the first update tick of a session (the stored time, the running
time and `crashed` still at their initial values `0`, `0` and `false`), for
every clock reading, the elapsed time is `0`, the tick leaves `runningTime` as
it is, and when playing it advances the figure (`tRex.update`, and
`tRex.updateJump` if jumping) and the horizon (`horizon.update`) by `0`. -/
theorem first_tick_elapsed_zero (E : Env) (s : Runner) (ht : s.time = 0)
    (hc : s.crashed = false) (hr : s.runningTime = 0) :
    elapsed (E.clock s.clockReads) s.time = 0 ∧
    (update E s).runningTime = s.runningTime ∧
    (s.playing = true →
      timedCalls (update E s).calls =
        Call.trexUpdate 0 none ::
        Call.horizonUpdate 0 s.currentSpeed (decide (s.runningTime > s.config.CLEAR_TIME))
          s.inverted ::
        ((if s.tRex.jumping = true then [Call.trexUpdateJump 0] else []) ++
          timedCalls s.calls)) := by
  have he : elapsed (E.clock s.clockReads) s.time = 0 := by
    simp [elapsed, ht]
  refine ⟨he, ?_, ?_⟩
  · rw [update_runningTime E s hc, he, hr]
    simp
  · intro hp
    obtain ⟨d, hd, h⟩ := update_timedCalls E s hc hp
    rw [he] at hd h
    have hd0 : d = 0 := by
      rcases hd with h1 | h1 <;> exact h1
    rw [h, hd0]
    simp

theorem first_tick_elapsed_zero_witness :
    runner0.time = 0 ∧ runner0.crashed = false ∧ runner0.runningTime = 0 ∧
    elapsed (env0.clock runner0.clockReads) runner0.time = 0 ∧
    (update env0 runner0).runningTime = runner0.runningTime ∧
    (runner0.playing = true →
      timedCalls (update env0 runner0).calls =
        Call.trexUpdate 0 none ::
        Call.horizonUpdate 0 runner0.currentSpeed
          (decide (runner0.runningTime > runner0.config.CLEAR_TIME)) runner0.inverted ::
        ((if runner0.tRex.jumping = true then [Call.trexUpdateJump 0] else []) ++
          timedCalls runner0.calls)) :=
  ⟨rfl, rfl, rfl, first_tick_elapsed_zero env0 runner0 rfl rfl rfl⟩

/-! ## C7: a pause is not counted -/

/-- C7, as stated, fails in two cases.  A game paused in its first jump, with
16 ms of running time: the tick that `play` runs ends the jump and plays the
intro, which starts the game, and the running time is `0` afterwards, not
`16 + 16`.  A clock that still reads `0` when `play` reads it, right after the
first tick: the tick that `play` runs takes the stored time `0` for "no time
stored" and adds `0`, not the `16` between the two readings. -/
theorem pause_accounting_fails :
    (runnerPausedInFirstJump.crashed = false ∧ runnerPausedInFirstJump.runningTime = 16 ∧
      envLanding.clock runnerPausedInFirstJump.clockReads = 1032 ∧
      envLanding.clock (runnerPausedInFirstJump.clockReads + 1) = 1048 ∧
      (play envLanding runnerPausedInFirstJump).runningTime = 0) ∧
    (runnerAfterFirstTick.crashed = false ∧ runnerAfterFirstTick.runningTime = 0 ∧
      envCoarse.clock (stop runnerAfterFirstTick).clockReads = 0 ∧
      envCoarse.clock ((stop runnerAfterFirstTick).clockReads + 1) = 16 ∧
      (play envCoarse (stop runnerAfterFirstTick)).runningTime = 0) := by
  obtain ⟨b1, b2, b3, b4, b5, b6⟩ := paused_in_first_jump_facts
  have a1 : runnerAfterFirstTick.crashed = false := (update_speed envCoarse runner0 rfl).2.2.1
  have a2 : runnerAfterFirstTick.clockReads = 1 := (update_fields envCoarse runner0 rfl).2.1
  have a3 : runnerAfterFirstTick.runningTime = 0 := by
    have h := update_runningTime envCoarse runner0 rfl
    rw [runnerAfterFirstTick, h]
    norm_num [envCoarse, env0, runner0, startGame, Runner.new, trex0, elapsed]
  obtain ⟨a4, -, -⟩ := update_jumpCount envCoarse runner0 rfl (by decide)
    (fun _ _ _ => rfl) (fun _ _ => rfl)
    (fun _ t => by
      show (if t.jumping = true then t else _).jumpCount = _
      split <;> rfl)
  have a7 : runnerAfterFirstTick.tRex.jumpCount = 0 := a4
  refine ⟨⟨b1, b2, ?_, ?_, ?_⟩, ⟨a1, a3, ?_, ?_, ?_⟩⟩
  · rw [b3]
    norm_num [envLanding, env0]
  · rw [b3]
    norm_num [envLanding, env0]
  · rw [play_runningTime envLanding _ b1, b6, b5, b4]
    simp [envLanding, env0, trex0]
  · simp [a2, envCoarse]
  · simp [a2, envCoarse]
  · rw [play_runningTime envCoarse _ (by simpa using a1)]
    simp [a2, a3, a7, envCoarse, env0, elapsed]

/-- C7, amended. For a runner that is not crashed, a clock that does not read
`0` when `play` reads it, and a tick of `play` that does not play the intro
(the figure, once `play` and that tick have updated it, does not have
`jumpCount == 1` on a runner that is neither playing the intro nor activated),
a pause of any length is left out of the running time: `stop` leaves
`runningTime` unchanged and reads no clock, and the tick that `play` runs adds
exactly the difference between the tick's clock reading and the reading of
`play` itself, whatever the stored time of the last tick before the pause. -/
theorem pause_excluded (E : Env) (s : Runner) (hc : s.crashed = false)
    (h0 : E.clock s.clockReads ≠ 0)
    (hintro : ¬ ((if (E.trexUpdate 0 (some TrexStatus.RUNNING) s.tRex).jumping = true then
          E.trexUpdateJump (E.clock (s.clockReads + 1) - E.clock s.clockReads)
            (E.trexUpdate 0 (some TrexStatus.RUNNING) s.tRex)
        else E.trexUpdate 0 (some TrexStatus.RUNNING) s.tRex).jumpCount = 1 ∧
      s.playingIntro = false ∧ s.activated = false)) :
    (stop s).runningTime = s.runningTime ∧
    (stop s).clockReads = s.clockReads ∧
    (play E (stop s)).runningTime =
      s.runningTime + (E.clock (s.clockReads + 1) - E.clock s.clockReads) := by
  have he : elapsed (E.clock (s.clockReads + 1)) (E.clock s.clockReads) =
      E.clock (s.clockReads + 1) - E.clock s.clockReads := by
    simp [elapsed, h0]
  refine ⟨by simp, by simp, ?_⟩
  rw [play_runningTime E (stop s) (by simpa using hc)]
  simp only [stop_fields, he]
  rw [if_neg hintro]

theorem pause_excluded_witness :
    runnerWarmingUp.crashed = false ∧ runnerWarmingUp.activated = false ∧
    env0.clock runnerWarmingUp.clockReads ≠ 0 ∧
    runnerWarmingUp.runningTime = 300 ∧
    (stop runnerWarmingUp).runningTime = runnerWarmingUp.runningTime ∧
    (stop runnerWarmingUp).clockReads = runnerWarmingUp.clockReads ∧
    (play env0 (stop runnerWarmingUp)).runningTime =
      runnerWarmingUp.runningTime +
        (env0.clock (runnerWarmingUp.clockReads + 1) - env0.clock runnerWarmingUp.clockReads) ∧
    (play env0 (stop runnerWarmingUp)).runningTime = 316 := by
  have h0 : env0.clock runnerWarmingUp.clockReads ≠ 0 := by
    norm_num [env0, runnerWarmingUp, runner0, startGame, Runner.new]
  have h := pause_excluded env0 runnerWarmingUp rfl h0
    (by simp [env0, runnerWarmingUp, runner0, startGame, Runner.new, trex0])
  refine ⟨rfl, rfl, h0, rfl, h.1, h.2.1, h.2.2, ?_⟩
  rw [h.2.2]
  norm_num [env0, runnerWarmingUp, runner0, startGame, Runner.new]

/-! ## C8: two `play` calls in a row -/

/-- C8, evaluated at the failing input.  After `init` there is one frame
request.  `stop()` cancels it; the first `play()` requests frame 2; the second
`play()` requests frame 3 while frame 2 is still outstanding: two tick requests
are outstanding.  The same happens with three visibility events (hidden,
visible, visible). -/
theorem play_twice_schedules_twice :
    runner1.rafPending = [1] ∧
    (stop runner1).rafPending = [] ∧
    (play env0 (stop runner1)).rafPending = [2] ∧
    (play env0 (play env0 (stop runner1))).rafPending = [3, 2] ∧
    (onVisibilityChange env0 false (onVisibilityChange env0 false
      (onVisibilityChange env0 true runner1))).rafPending = [3, 2] := by
  obtain ⟨-, a2, a3, a4⟩ := update_schedule env0 runner0 rfl rfl
  obtain ⟨-, -, a5, -⟩ := update_speed env0 runner0 rfl
  have hraq : runner1.raqId = 1 := a2
  have hlast : runner1.rafLast = 1 := a3
  have hpend : runner1.rafPending = [1] := a4
  have hcr : runner1.crashed = false := a5
  have b1 : (stop runner1).rafPending = [] := by
    simp [hraq, hpend]
  have b2 : (stop runner1).rafLast = 1 := by
    simp [hlast]
  have b3 : (stop runner1).crashed = false := by
    simp [hcr]
  obtain ⟨c1, -, c3, c4⟩ := play_schedule env0 (stop runner1) b3
  obtain ⟨-, -, -, d4⟩ := play_schedule env0 (play env0 (stop runner1)) c1
  have e1 : (callTrexReset env0 (stop runner1)).crashed = false := by simpa using hcr
  obtain ⟨f1, -, f3, f4⟩ := play_schedule env0 (callTrexReset env0 (stop runner1)) e1
  have e2 : (callTrexReset env0 (play env0 (callTrexReset env0 (stop runner1)))).crashed =
      false := by
    simpa using f1
  obtain ⟨-, -, -, g4⟩ := play_schedule env0 _ e2
  refine ⟨hpend, b1, ?_, ?_, ?_⟩
  · rw [c4, b1, b2]
  · rw [d4, c4, c3, b1, b2]
  · simp only [onVisibilityChange, if_true, Bool.false_eq_true, if_false, b3, f1]
    rw [g4]
    simp [f3, f4, hlast, hpend, hraq]

/-! ## C9: the obstacles-enabled flag -/

/-- C9. In every playing tick the newest `horizon.update` call, the one of
this tick, carries an obstacles-enabled flag that is true if and only if
`runningTime`, with this tick's elapsed time added, is strictly greater than
`config.CLEAR_TIME`; for a runner that is not crashed it is the only
`horizon.update` call of the tick. -/
theorem hasObstacles_flag (E : Env) (s : Runner) (hp : s.playing = true) :
    ∃ d v f i rest,
      horizonUpdates (update E s).calls = (d, v, f, i) :: rest ∧
      (f = true ↔
        s.runningTime + elapsed (E.clock s.clockReads) s.time > s.config.CLEAR_TIME) ∧
      (s.crashed = false → rest = horizonUpdates s.calls) := by
  cases hc : s.crashed with
  | false =>
    obtain ⟨d, -, h⟩ := update_horizonUpdates E s hc hp
    exact ⟨d, _, _, _, _, h, by simp, fun _ => rfl⟩
  | true =>
    obtain ⟨d, v, i, rest, h⟩ := updateWith_horizonUpdates E (updateWith E id) s hp
    exact ⟨d, v, _, i, rest, h, by simp, fun hh => by cases hh⟩

/-- At a running time of exactly `CLEAR_TIME` the flag is still false. -/
theorem hasObstacles_flag_witness :
    runnerAtClearTime.playing = true ∧
    runnerAtClearTime.runningTime +
        elapsed (env0.clock runnerAtClearTime.clockReads) runnerAtClearTime.time =
      runnerAtClearTime.config.CLEAR_TIME ∧
    ∃ d v i rest, horizonUpdates (update env0 runnerAtClearTime).calls =
      (d, v, false, i) :: rest := by
  have e : runnerAtClearTime.runningTime +
      elapsed (env0.clock runnerAtClearTime.clockReads) runnerAtClearTime.time =
      runnerAtClearTime.config.CLEAR_TIME := by
    norm_num [runnerAtClearTime, runner0, startGame, Runner.new, RunnerConfig, env0, elapsed]
  obtain ⟨d, v, f, i, rest, h, hf, -⟩ := hasObstacles_flag env0 runnerAtClearTime rfl
  refine ⟨rfl, e, d, v, i, rest, ?_⟩
  rw [e] at hf
  have : f = false := by
    cases f
    · rfl
    · exact absurd (hf.mp rfl) (lt_irrefl _)
  rw [h, this]

/-! ## C10: restart from a crashed game -/

/-- C10, as stated, fails: a crashed runner that still holds the id of a frame
request (`raqId = 1`) is left exactly as it is by `restart`, still crashed and
not playing, with no tick scheduled. -/
theorem restart_ignored_while_frame_held :
    runnerCrashedHolding.crashed = true ∧ runnerCrashedHolding.raqId = 1 ∧
    (restart env0 runnerCrashedHolding).crashed = true ∧
    (restart env0 runnerCrashedHolding).playing = false ∧
    (restart env0 runnerCrashedHolding).rafPending = [] := by
  have h : restart env0 runnerCrashedHolding = runnerCrashedHolding := by
    unfold restart restartWith
    rw [if_neg (by decide)]
  rw [h]
  exact ⟨rfl, rfl, rfl, rfl, rfl⟩

/-- C10, amended. From every crashed state that holds no frame request
(`raqId` is `0`), `restart` clears `crashed`, sets `playing`, resets the run
timers (`invertTimer = 0`, `inverted = false`, and `runningTime` counted again
from `0`: it is `0` or the elapsed time of the tick that `restart` runs), and
schedules the next tick: one new frame request is outstanding. -/
theorem restart_from_crashed (E : Env) (s : Runner) (_hcr : s.crashed = true)
    (h : s.raqId = 0) :
    (restart E s).crashed = false ∧ (restart E s).playing = true ∧
    (restart E s).invertTimer = 0 ∧ (restart E s).inverted = false ∧
    ((restart E s).runningTime = 0 ∨
      (restart E s).runningTime =
        elapsed (E.clock (s.clockReads + 1)) (E.clock s.clockReads)) ∧
    (restart E s).updatePending = true ∧
    (restart E s).raqId = s.rafLast + 1 ∧
    (restart E s).rafPending = (s.rafLast + 1) :: s.rafPending := by
  exact restart_fields E s h

theorem restart_from_crashed_witness :
    runnerCrashedNarrow.crashed = true ∧ runnerCrashedNarrow.raqId = 0 ∧
    (restart env0 runnerCrashedNarrow).crashed = false ∧
    (restart env0 runnerCrashedNarrow).playing = true ∧
    (restart env0 runnerCrashedNarrow).invertTimer = 0 ∧
    (restart env0 runnerCrashedNarrow).inverted = false ∧
    ((restart env0 runnerCrashedNarrow).runningTime = 0 ∨
      (restart env0 runnerCrashedNarrow).runningTime =
        elapsed (env0.clock (runnerCrashedNarrow.clockReads + 1))
          (env0.clock runnerCrashedNarrow.clockReads)) ∧
    (restart env0 runnerCrashedNarrow).updatePending = true ∧
    (restart env0 runnerCrashedNarrow).raqId = runnerCrashedNarrow.rafLast + 1 ∧
    (restart env0 runnerCrashedNarrow).rafPending =
      (runnerCrashedNarrow.rafLast + 1) :: runnerCrashedNarrow.rafPending :=
  ⟨rfl, rfl, restart_from_crashed env0 runnerCrashedNarrow rfl rfl⟩

/-! ## C11: a tick in which the figure collides -/

/-- C11, as stated, fails: in a playing tick in which the box of the figure
overlaps the box of an obstacle, before the tick and after it, `update` leaves
the run as it is, not crashed and playing, and requests the next frame. -/
theorem collision_does_not_crash :
    collides geometry0 runnerColliding = true ∧
    collides geometry0 (update env0 runnerColliding) = true ∧
    runnerColliding.playing = true ∧ runnerColliding.crashed = false ∧
    (update env0 runnerColliding).crashed = false ∧
    (update env0 runnerColliding).playing = true ∧
    (update env0 runnerColliding).rafPending = [1] := by
  obtain ⟨-, -, h1, h2⟩ := update_speed env0 runnerColliding rfl
  obtain ⟨-, -, -, h3⟩ := update_schedule env0 runnerColliding rfl rfl
  obtain ⟨hx, hy, ho⟩ := update_positions env0 runnerColliding rfl
    (fun _ _ _ => ⟨rfl, rfl⟩) (fun _ _ => ⟨rfl, rfl⟩)
    (fun _ t => by
      show (if t.jumping = true then t else _).xPos = _ ∧
        (if t.jumping = true then t else _).yPos = _
      split <;> exact ⟨rfl, rfl⟩)
    (fun _ _ _ _ _ => rfl)
  refine ⟨?_, ?_, rfl, rfl, h1, h2, h3⟩
  · simp [collides, geometry0, boxCompare, runnerColliding, runner0, startGame, Runner.new, trex0]
    norm_num
  · simp only [collides, geometry0, hx, hy, ho]
    simp [boxCompare, runnerColliding, runner0, startGame, Runner.new, trex0]
    norm_num

/-- C11, amended. `update` has no collision check: every playing tick of a
runner that is not crashed, also one in which the figure's bounding boxes
collide with an active obstacle, leaves the runner not crashed and playing and
requests exactly one new frame. -/
theorem update_ignores_collision (G : Geometry) (E : Env) (s : Runner)
    (hp : s.playing = true) (hc : s.crashed = false) (_hcol : collides G s = true) :
    (update E s).crashed = false ∧ (update E s).playing = true ∧
    (update E s).updatePending = true ∧
    (update E s).rafPending = (s.rafLast + 1) :: s.rafPending := by
  obtain ⟨-, -, h1, h2⟩ := update_speed E s hc
  obtain ⟨h3, -, -, h4⟩ := update_schedule E s hc hp
  exact ⟨h1, by rw [h2, hp], h3, h4⟩

theorem update_ignores_collision_witness :
    runnerColliding.playing = true ∧ runnerColliding.crashed = false ∧
    collides geometry0 runnerColliding = true ∧
    (update env0 runnerColliding).crashed = false ∧
    (update env0 runnerColliding).playing = true ∧
    (update env0 runnerColliding).updatePending = true ∧
    (update env0 runnerColliding).rafPending =
      (runnerColliding.rafLast + 1) :: runnerColliding.rafPending := by
  have hcol : collides geometry0 runnerColliding = true := by
    simp [collides, geometry0, boxCompare, runnerColliding, runner0, startGame, Runner.new, trex0]
    norm_num
  exact ⟨rfl, rfl, hcol, update_ignores_collision geometry0 env0 runnerColliding rfl rfl hcol⟩

/-! ## C12: the debug setter -/

/-- C12, as stated, fails, with the value 5 on the runner that `init` leaves.
`toString` is not a key of the configuration (no entry of that name), yet
`'toString' in this.config` is true, the name being inherited, and the call
stores the value: the configuration changes.  `__proto__` passes the guard of
the method as well, yet nothing is stored and nothing changes. -/
theorem updateConfigSetting_inherited_names :
    runner0.js.config.lookup "toString" = none ∧
    (updateConfigSetting js0 env0 "toString" (JSVal.num 5) runner0.js).config.lookup
      "toString" = some (JSVal.num 5) ∧
    updateConfigSetting js0 env0 "toString" (JSVal.num 5) runner0.js ≠ runner0.js ∧
    js0.has runner0.js.config "__proto__" = true ∧
    (updateConfigSetting js0 env0 "__proto__" (JSVal.num 5) runner0.js).config.lookup
      "__proto__" = none ∧
    updateConfigSetting js0 env0 "__proto__" (JSVal.num 5) runner0.js = runner0.js := by
  have h0 : runner0.js.config.lookup "toString" = none := by
    simp [Runner.js, Config.entries, List.lookup]
  have h1 : (updateConfigSetting js0 env0 "toString" (JSVal.num 5) runner0.js).config.lookup
      "toString" = some (JSVal.num 5) := by
    have hg : js0.has runner0.js.config "toString" = true := by
      simp [JS.has, js0, objectPrototypeNames]
    unfold updateConfigSetting
    rw [if_pos ⟨hg, by simp, by simp⟩, if_neg (by decide), if_neg (by decide),
      if_neg (by decide)]
    exact (JS.lookup_store "toString" _ _).1 (by decide)
  have h2 : js0.has runner0.js.config "__proto__" = true := by
    simp [JS.has]
  have h3 : updateConfigSetting js0 env0 "__proto__" (JSVal.num 5) runner0.js = runner0.js := by
    unfold updateConfigSetting
    rw [if_pos ⟨h2, by simp, by simp⟩, if_neg (by decide), if_neg (by decide),
      if_neg (by decide)]
    simp [JS.store]
  refine ⟨h0, h1, fun h => ?_, h2, ?_, h3⟩
  · rw [h, h0] at h1
    exact Option.noConfusion h1
  · rw [h3]
    simp [Runner.js, Config.entries, List.lookup]

/-- C12, amended. For every setting name and every primitive value:
`updateConfigSetting` changes nothing when `setting in this.config` is false or
the value is `undefined` or `null`, and nothing either under the name
`__proto__`, which `in` finds and under which no primitive value is stored.
In every other case, also for a name the configuration only inherits and for a
value of any type, the value is stored under the name and every other entry of
the configuration is as before, and the value is propagated, as it is, not
converted: for `GRAVITY`, `MIN_JUMP_HEIGHT` and `SPEED_DROP_COEFFICIENT` it is
written under the same name to the figure's own configuration and nothing else
of the figure changes; for `INITIAL_JUMP_VELOCITY` the figure becomes what its
method `setJumpVelocity` makes of it with that value, and the call is recorded;
for `SPEED` the speed becomes what `setSpeed(value)` computes from the speed,
the width and the mobile speed coefficient (for a number `q` on a runner `s`:
the speed of `setSpeed (some q) s`), the figure untouched; for every other name
the figure, the calls and the speed are as before. -/
theorem updateConfigSetting_effect (J : JS) (E : Env) (setting : String) (value : JSVal)
    (d : JSRunner) :
    ((J.has d.config setting = false ∨ value = JSVal.undefined ∨ value = JSVal.null) →
      updateConfigSetting J E setting value d = d) ∧
    (J.has d.config setting = true → value ≠ JSVal.undefined → value ≠ JSVal.null →
      (setting = "__proto__" → updateConfigSetting J E setting value d = d) ∧
      (setting ≠ "__proto__" →
        (updateConfigSetting J E setting value d).config.lookup setting = some value) ∧
      (∀ other, other ≠ setting →
        (updateConfigSetting J E setting value d).config.lookup other =
          d.config.lookup other) ∧
      (updateConfigSetting J E setting value d).dimensions = d.dimensions ∧
      ((setting = "GRAVITY" ∨ setting = "MIN_JUMP_HEIGHT" ∨
          setting = "SPEED_DROP_COEFFICIENT") →
        (updateConfigSetting J E setting value d).tRex =
          { d.tRex with config := assocSet setting value d.tRex.config } ∧
        (updateConfigSetting J E setting value d).calls = d.calls ∧
        (updateConfigSetting J E setting value d).currentSpeed = d.currentSpeed) ∧
      (setting = "INITIAL_JUMP_VELOCITY" →
        (updateConfigSetting J E setting value d).tRex = E.trexSetJumpVelocity value d.tRex ∧
        (updateConfigSetting J E setting value d).calls =
          Call.trexSetJumpVelocity value :: d.calls ∧
        (updateConfigSetting J E setting value d).currentSpeed = d.currentSpeed) ∧
      (setting = "SPEED" →
        (updateConfigSetting J E setting value d).tRex = d.tRex ∧
        (updateConfigSetting J E setting value d).calls = d.calls ∧
        (¬ d.dimensions.WIDTH < DEFAULT_WIDTH →
          (updateConfigSetting J E setting value d).currentSpeed =
            if value.truthy = true then value else d.currentSpeed) ∧
        (d.dimensions.WIDTH < DEFAULT_WIDTH →
          (updateConfigSetting J E setting value d).currentSpeed =
            if J.gt
                (J.mul
                  (J.div
                    (J.mul (if value.truthy = true then value else d.currentSpeed)
                      (JSVal.num d.dimensions.WIDTH))
                    (JSVal.num DEFAULT_WIDTH))
                  (JS.read d.config "MOBILE_SPEED_COEFFICIENT"))
                (if value.truthy = true then value else d.currentSpeed) = true then
              (if value.truthy = true then value else d.currentSpeed)
            else
              J.mul
                (J.div
                  (J.mul (if value.truthy = true then value else d.currentSpeed)
                    (JSVal.num d.dimensions.WIDTH))
                  (JSVal.num DEFAULT_WIDTH))
                (JS.read d.config "MOBILE_SPEED_COEFFICIENT")) ∧
        ∀ (s : Runner) (q : ℚ), d = s.js → value = JSVal.num q →
          (updateConfigSetting J E setting value d).currentSpeed =
            JSVal.num (setSpeed (some q) s).currentSpeed) ∧
      ((setting ≠ "GRAVITY" ∧ setting ≠ "MIN_JUMP_HEIGHT" ∧
          setting ≠ "SPEED_DROP_COEFFICIENT" ∧ setting ≠ "INITIAL_JUMP_VELOCITY" ∧
          setting ≠ "SPEED") →
        (updateConfigSetting J E setting value d).tRex = d.tRex ∧
        (updateConfigSetting J E setting value d).calls = d.calls ∧
        (updateConfigSetting J E setting value d).currentSpeed = d.currentSpeed)) := by
  refine ⟨fun h => ?_, fun hin hu hn => ?_⟩
  · unfold updateConfigSetting
    rw [if_neg]
    rintro ⟨h1, h2, h3⟩
    rcases h with h | h | h
    · rw [h] at h1; exact Bool.noConfusion h1
    · exact h2 h
    · exact h3 h
  · have hst := JS.lookup_store setting value d.config
    have hg : J.has d.config setting = true ∧ value ≠ JSVal.undefined ∧
        value ≠ JSVal.null := ⟨hin, hu, hn⟩
    unfold updateConfigSetting
    rw [if_pos hg]
    by_cases h1 : setting = "GRAVITY" ∨ setting = "MIN_JUMP_HEIGHT" ∨
        setting = "SPEED_DROP_COEFFICIENT"
    · have hp : setting ≠ "__proto__" := by rcases h1 with h | h | h <;> rw [h] <;> decide
      have hi : setting ≠ "INITIAL_JUMP_VELOCITY" := by
        rcases h1 with h | h | h <;> rw [h] <;> decide
      have hs : setting ≠ "SPEED" := by rcases h1 with h | h | h <;> rw [h] <;> decide
      rw [if_pos h1]
      refine ⟨fun h => absurd h hp, hst.1, hst.2.2, rfl, fun _ => ⟨?_, rfl, rfl⟩,
        fun h => absurd h hi, fun h => absurd h hs, fun h => ?_⟩
      · simp [JS.store, hp]
      · rcases h1 with h1 | h1 | h1
        · exact absurd h1 h.1
        · exact absurd h1 h.2.1
        · exact absurd h1 h.2.2.1
    · rw [if_neg h1]
      by_cases h2 : setting = "INITIAL_JUMP_VELOCITY"
      · have hp : setting ≠ "__proto__" := by rw [h2]; decide
        have hs : setting ≠ "SPEED" := by rw [h2]; decide
        rw [if_pos h2]
        exact ⟨fun h => absurd h hp, hst.1, hst.2.2, rfl, fun h => absurd h h1,
          fun _ => ⟨rfl, rfl, rfl⟩, fun h => absurd h hs, fun h => absurd h2 h.2.2.2.1⟩
      · rw [if_neg h2]
        by_cases h3 : setting = "SPEED"
        · have hp : setting ≠ "__proto__" := by rw [h3]; decide
          have hf := setSpeed_js_fields J value { d with config := JS.store setting value d.config }
          have hm : JS.read (JS.store setting value d.config) "MOBILE_SPEED_COEFFICIENT" =
              JS.read d.config "MOBILE_SPEED_COEFFICIENT" :=
            JS.read_store_of_ne setting _ value d.config (by rw [h3]; decide)
          rw [if_pos h3]
          refine ⟨fun h => absurd h hp, ?_, ?_, hf.2.1, fun h => absurd h h1,
            fun h => absurd h h2, fun _ => ⟨hf.2.2.1, hf.2.2.2, fun hw => ?_, fun hw => ?_,
              fun s q hd hv => ?_⟩, fun h => absurd h3 h.2.2.2.2⟩
          · rw [hf.1]; exact hst.1
          · intro other ho
            rw [hf.1]; exact hst.2.2 other ho
          · unfold JSRunner.setSpeed
            dsimp only
            rw [if_neg hw]
            split_ifs <;> rfl
          · unfold JSRunner.setSpeed
            dsimp only
            rw [if_pos hw, hm]
          · subst hd hv h3
            exact setSpeed_js_num J s q _ (Config.read_entries_MOBILE_SPEED_COEFFICIENT _ _)
        · rw [if_neg h3]
          refine ⟨fun h => ?_, hst.1, hst.2.2, rfl, fun h => absurd h h1,
            fun h => absurd h h2, fun h => absurd h h3, fun _ => ⟨rfl, rfl, rfl⟩⟩
          rw [hst.2.1 h]

theorem updateConfigSetting_effect_witness :
    updateConfigSetting js0 env0 "NO_SUCH_SETTING" (JSVal.num 15) runner0.js = runner0.js ∧
    updateConfigSetting js0 env0 "SPEED" JSVal.null runner0.js = runner0.js ∧
    (updateConfigSetting js0 env0 "INITIAL_JUMP_VELOCITY" (JSVal.num 15)
      runner0.js).config.lookup "INITIAL_JUMP_VELOCITY" = some (JSVal.num 15) ∧
    (updateConfigSetting js0 env0 "INITIAL_JUMP_VELOCITY" (JSVal.num 15) runner0.js).tRex =
      { trex0 with jumpVelocity := -15 } ∧
    (updateConfigSetting js0 env0 "INITIAL_JUMP_VELOCITY" (JSVal.num 15) runner0.js).calls =
      [Call.trexSetJumpVelocity (JSVal.num 15)] ∧
    (updateConfigSetting js0 env0 "GRAVITY" (JSVal.str "high") runner0.js).tRex =
      { trex0 with config := [("GRAVITY", JSVal.str "high")] } ∧
    (updateConfigSetting js0 env0 "SPEED" (JSVal.num 7) runner0.js).currentSpeed =
      JSVal.num 7 ∧
    (updateConfigSetting js0 env0 "SPEED" (JSVal.num 6) runnerCrashedNarrow.js).currentSpeed =
      JSVal.num (24 / 5) := by
  have hI : js0.has runner0.js.config "INITIAL_JUMP_VELOCITY" = true := by
    simp [JS.has, Runner.js, Config.entries, List.lookup]
  have hG : js0.has runner0.js.config "GRAVITY" = true := by
    simp [JS.has, Runner.js, Config.entries, List.lookup]
  have hS : js0.has runner0.js.config "SPEED" = true := by
    simp [JS.has, Runner.js, Config.entries, List.lookup]
  have hN : js0.has runner0.js.config "NO_SUCH_SETTING" = false := by
    simp [JS.has, js0, objectPrototypeNames, Runner.js, Config.entries, List.lookup]
  have eI := (updateConfigSetting_effect js0 env0 "INITIAL_JUMP_VELOCITY" (JSVal.num 15)
    runner0.js).2 hI (by simp) (by simp)
  have eG := (updateConfigSetting_effect js0 env0 "GRAVITY" (JSVal.str "high")
    runner0.js).2 hG (by simp) (by simp)
  have eS := (updateConfigSetting_effect js0 env0 "SPEED" (JSVal.num 7)
    runner0.js).2 hS (by simp) (by simp)
  have hM : js0.has runnerCrashedNarrow.js.config "SPEED" = true := by
    simp [JS.has, Runner.js, Config.entries, List.lookup]
  have eM := (updateConfigSetting_effect js0 env0 "SPEED" (JSVal.num 6)
    runnerCrashedNarrow.js).2 hM (by simp) (by simp)
  refine ⟨(updateConfigSetting_effect js0 env0 "NO_SUCH_SETTING" (JSVal.num 15)
      runner0.js).1 (Or.inl hN),
    (updateConfigSetting_effect js0 env0 "SPEED" JSVal.null runner0.js).1 (Or.inr (Or.inr rfl)),
    eI.2.1 (by decide), ?_, ?_, ?_, ?_, ?_⟩
  · rw [(eI.2.2.2.2.2.1 rfl).1]
    simp [env0, Runner.js, runner0, startGame, Runner.new, trex0]
  · rw [(eI.2.2.2.2.2.1 rfl).2.1]
    simp [Runner.js, runner0, startGame, Runner.new]
  · rw [(eG.2.2.2.2.1 (Or.inl rfl)).1]
    simp [assocSet, Runner.js, runner0, startGame, Runner.new, trex0]
  · rw [(eS.2.2.2.2.2.2.1 rfl).2.2.1 (by norm_num [Runner.js, runner0, startGame, Runner.new,
      DEFAULT_WIDTH, DefaultDimensions])]
    simp [JSVal.truthy]
  · rw [(eM.2.2.2.2.2.2.1 rfl).2.2.2.2 runnerCrashedNarrow 6 rfl rfl,
      setSpeed_currentSpeed _ _ (by norm_num)]
    norm_num [runnerCrashedNarrow, runner0, startGame, Runner.new, RunnerConfig, DEFAULT_WIDTH]

end TRexRunner
